import Mathlib

/-!
Verification of the AODV-style mesh routing core
(`subsys/bluetooth/host/mesh/routing_table.c` and
`subsys/bluetooth/host/mesh/aodv_control_messages.c`).

The C code is shallowly embedded: machine integers become `Nat` (unsigned
fields) or `Int` (the signed 8-bit `rssi`), the two intrusive singly linked
lists (`valid_list`, `invalid_list`) become `List` values ordered as the
intrusive lists are, and pointer identity of a slab record is represented by
an `eid : Nat` field (the record's address); `sys_slist_find_and_remove`
removes the first node with the given identity and `sys_slist_append`
unconditionally appends, exactly as the intrusive list does.  The inline
`struct k_timer lifetime` member of a route entry is represented by the
callback it was initialised with and the duration it was started with.
Fallible slab allocation (`k_mem_slab_alloc` with the `ALLOCATION_INTERVAL`
timeout) is modelled as succeeding exactly when a free block exists.
-/

/-! ## Configuration constants (routing_table.h, aodv_control_messages.h) -/

/-- `#define NUMBER_OF_ENTRIES 20`: slab capacity of the routing table. -/
def NUMBER_OF_ENTRIES : Nat := 20

/-- `#define LIFETIME K_SECONDS(120)` in milliseconds. -/
def LIFETIME : Nat := 120000

/-- `#define RREQ_INTERVAL_WAIT K_MSEC(1000)` in milliseconds. -/
def RREQ_INTERVAL_WAIT : Nat := 1000

/-- `#define RSSI_MIN -90` (aodv_control_messages.h). -/
def RSSI_MIN : Int := -90

/-- `#define RREQ_RING_SEARCH_MAX_TTL 10`. -/
def RREQ_RING_SEARCH_MAX_TTL : Nat := 10

/-- slab capacity of the rrep_rwait pending-reply list (`rrep_rwait_list_NUMBER_OF_ENTRIES`). -/
def RREP_RWAIT_ENTRIES : Nat := 20

/-- errno `ELOCAL` (RREQ source is a local element).  The numeric value comes
from the host errno header, outside this repository; only its identity and
sign matter to the routing core. -/
def ELOCAL : Int := 200

/-- errno `ENORREQ` (RREQ received after the RREP interval, "already replied"). -/
def ENORREQ : Int := 201

/-- errno `ENOSR` (slab allocation timed out, pool exhausted). -/
def ENOSR : Int := 63

/-- errno `ENORREP` (ring search exhausted the maximal TTL with no reply). -/
def ENORREP : Int := 202

/-! ## Data model -/

/-- The callback a route entry's `lifetime` timer was initialised with
(`k_timer_init`): the valid-list deleter `bt_mesh_delete_entry_valid`, the
invalid-list deleter `bt_mesh_delete_entry_invalid`, or the RREQ wait
callback `rreq_recv_cb` passed to `bt_mesh_create_entry_invalid_with_cb`. -/
inductive TimerCb where
  | deleteValid : TimerCb
  | deleteInvalid : TimerCb
  | rreqRecvCb : TimerCb
deriving DecidableEq, Repr

/-- State of the inline `struct k_timer lifetime` member: which callback it
is bound to and the duration `k_timer_start` was last called with. -/
structure TimerInfo where
  cb : TimerCb
  duration : Nat
deriving DecidableEq, Repr

/-- `struct bt_mesh_route_entry` (routing_table.h).  `eid` stands for the
slab record's address: it is what the intrusive-list node and `CONTAINER_OF`
tricks identify a record by. -/
structure RouteEntry where
  eid : Nat
  source_address : Nat
  destination_address : Nat
  destination_sequence_number : Nat
  next_hop : Nat
  source_number_of_elements : Nat
  destination_number_of_elements : Nat
  hop_count : Nat
  rssi : Int
  repairable : Bool
  net_idx : Nat
  timer : TimerInfo
deriving DecidableEq, Repr

/-- `struct rrep_rwait_list_entry` (aodv_control_messages.h). -/
structure PendEntry where
  destination_address : Nat
  hop_count : Nat
deriving DecidableEq, Repr

/-- The mutable state of the routing core that the claims range over: the
two routing-table lists backed by the shared `routing_table_slab`, the
`rrep_rwait_list` pending-reply list backed by `rrep_slab`, and the next
fresh record identity (`nextId` only grows; a slab record's reincarnation
after free is a logically distinct entry). -/
structure MeshState where
  valid : List RouteEntry
  invalid : List RouteEntry
  pend : List PendEntry
  nextId : Nat
deriving DecidableEq, Repr

/-- The empty state after `bt_mesh_routing_table_init` and
`bt_mesh_trans_rrep_rwait_list_init`. -/
def initState : MeshState := ⟨[], [], [], 0⟩

/-- Number of live routing-table slab allocations: every allocated record is
appended to exactly one of the two lists by its creator. -/
def liveCount (st : MeshState) : Nat := st.valid.length + st.invalid.length

/-! ## List helpers (intrusive-list semantics) -/

/-- Replace the first element satisfying `p` by its image under `f`; models
an in-place field update through the pointer returned by a search. -/
def updateFirst (p : α → Bool) (f : α → α) : List α → List α
  | [] => []
  | x :: xs => if p x then f x :: xs else x :: updateFirst p f xs

/-- `sys_slist_find_and_remove` keyed by record identity: removes the first
node belonging to the record with identity `k`. -/
def removeById (k : Nat) (l : List RouteEntry) : List RouteEntry :=
  l.eraseP (fun e => e.eid == k)

/-! ## Routing table operations (routing_table.c) -/

/-- `bt_mesh_create_entry_valid`: allocate a record from
`routing_table_slab`, append it to the valid list and start its lifetime
timer with `bt_mesh_delete_entry_valid` and `LIFETIME`.  The C function
returns a pointer to the zeroed record and the caller fills the routing
fields in before any further table operation; the model takes the caller's
fields and performs the create atomically.  Allocation fails when no free
block exists, in which case the function returns false and the state is
untouched. -/
def bt_mesh_create_entry_valid (fields : RouteEntry) (st : MeshState) : MeshState × Bool :=
  if liveCount st < NUMBER_OF_ENTRIES then
    ({ st with
        valid := st.valid ++ [{ fields with
          eid := st.nextId,
          timer := ⟨TimerCb.deleteValid, LIFETIME⟩ }],
        nextId := st.nextId + 1 }, true)
  else (st, false)

/-- `bt_mesh_create_entry_invalid`: as `bt_mesh_create_entry_valid` but the
record is appended to the invalid list; the timer is started with
`bt_mesh_delete_entry_invalid` and `LIFETIME`. -/
def bt_mesh_create_entry_invalid (fields : RouteEntry) (st : MeshState) : MeshState × Bool :=
  if liveCount st < NUMBER_OF_ENTRIES then
    ({ st with
        invalid := st.invalid ++ [{ fields with
          eid := st.nextId,
          timer := ⟨TimerCb.deleteInvalid, LIFETIME⟩ }],
        nextId := st.nextId + 1 }, true)
  else (st, false)

/-- `bt_mesh_create_entry_invalid_with_cb`: appends to the invalid list and
starts the timer with the caller-supplied callback (`rreq_recv_cb`, the only
callback passed in the source) and `RREQ_INTERVAL_WAIT`. -/
def bt_mesh_create_entry_invalid_with_cb (fields : RouteEntry) (st : MeshState) : MeshState × Bool :=
  if liveCount st < NUMBER_OF_ENTRIES then
    ({ st with
        invalid := st.invalid ++ [{ fields with
          eid := st.nextId,
          timer := ⟨TimerCb.rreqRecvCb, RREQ_INTERVAL_WAIT⟩ }],
        nextId := st.nextId + 1 }, true)
  else (st, false)

/-- The destination-and-source in-range match of
`bt_mesh_search_valid_destination` / `bt_mesh_search_invalid_destination`:
`destination_address >= e->destination_address && destination_address <
e->destination_address + e->destination_number_of_elements && source_address
>= e->source_address && source_address < e->source_address +
e->source_number_of_elements && net_idx == e->net_idx`. -/
def destSrcRangePred (source_address destination_address net_idx : Nat)
    (e : RouteEntry) : Bool :=
  decide (destination_address ≥ e.destination_address) &&
  decide (destination_address < e.destination_address + e.destination_number_of_elements) &&
  decide (source_address ≥ e.source_address) &&
  decide (source_address < e.source_address + e.source_number_of_elements) &&
  (net_idx == e.net_idx)

/-- `bt_mesh_search_valid_destination`: first valid-list entry whose
destination and source element ranges contain the queried addresses in the
given subnet.  Returning `some e` models the C function returning true and
writing `e` through its out-parameter. -/
def bt_mesh_search_valid_destination (source_address destination_address net_idx : Nat)
    (st : MeshState) : Option RouteEntry :=
  st.valid.find? (destSrcRangePred source_address destination_address net_idx)

/-- `bt_mesh_search_invalid_destination`: the same search over the invalid list. -/
def bt_mesh_search_invalid_destination (source_address destination_address net_idx : Nat)
    (st : MeshState) : Option RouteEntry :=
  st.invalid.find? (destSrcRangePred source_address destination_address net_idx)

/-- The destination-only in-range match of
`bt_mesh_search_valid_destination_without_source`. -/
def destRangePred (destination_address net_idx : Nat) (e : RouteEntry) : Bool :=
  decide (destination_address ≥ e.destination_address) &&
  decide (destination_address < e.destination_address + e.destination_number_of_elements) &&
  (net_idx == e.net_idx)

/-- `bt_mesh_search_valid_destination_without_source`. -/
def bt_mesh_search_valid_destination_without_source (destination_address net_idx : Nat)
    (st : MeshState) : Option RouteEntry :=
  st.valid.find? (destRangePred destination_address net_idx)

/-- The match of `bt_mesh_search_invalid_destination_with_range`: the stored
destination lies in `[destination_address, destination_address +
destination_number_of_elements)` and the stored source matches exactly. -/
def destWithRangePred (source_address destination_address
    destination_number_of_elements net_idx : Nat) (e : RouteEntry) : Bool :=
  decide (e.destination_address ≥ destination_address) &&
  decide (e.destination_address < destination_address + destination_number_of_elements) &&
  (source_address == e.source_address) &&
  (net_idx == e.net_idx)

/-- `bt_mesh_search_invalid_destination_with_range`. -/
def bt_mesh_search_invalid_destination_with_range (source_address destination_address
    destination_number_of_elements net_idx : Nat) (st : MeshState) : Option RouteEntry :=
  st.invalid.find? (destWithRangePred source_address destination_address
    destination_number_of_elements net_idx)

/-- `bt_mesh_validate_route`: a NULL entry returns false and changes
nothing.  Otherwise the function stops the entry's timer, removes the
entry's node from the invalid list (`sys_slist_find_and_remove`, a no-op
when the node is not there), appends the node to the valid list, and
restarts the timer with `bt_mesh_delete_entry_valid` and `LIFETIME`.  The C
function never checks that the entry actually sits in the invalid list. -/
def bt_mesh_validate_route : Option RouteEntry → MeshState → MeshState × Bool
  | none, st => (st, false)
  | some e, st =>
    ({ st with
        invalid := removeById e.eid st.invalid,
        valid := st.valid ++ [{ e with timer := ⟨TimerCb.deleteValid, LIFETIME⟩ }] }, true)

/-- `bt_mesh_invalidate_route`: the mirror image of
`bt_mesh_validate_route`; the timer is restarted with
`bt_mesh_delete_entry_invalid` and `LIFETIME`. -/
def bt_mesh_invalidate_route : Option RouteEntry → MeshState → MeshState × Bool
  | none, st => (st, false)
  | some e, st =>
    ({ st with
        valid := removeById e.eid st.valid,
        invalid := st.invalid ++ [{ e with timer := ⟨TimerCb.deleteInvalid, LIFETIME⟩ }] }, true)

/-- `bt_mesh_delete_entry_valid` (lifetime timer fired on a valid entry):
remove the record's node from the valid list and free the slab block. -/
def bt_mesh_delete_entry_valid (e : RouteEntry) (st : MeshState) : MeshState :=
  { st with valid := removeById e.eid st.valid }

/-- `bt_mesh_delete_entry_invalid` (lifetime timer fired on an invalid entry). -/
def bt_mesh_delete_entry_invalid (e : RouteEntry) (st : MeshState) : MeshState :=
  { st with invalid := removeById e.eid st.invalid }

/-- `bt_mesh_delete_entry_link_drop`: stops the timer, removes the node from
the valid list and frees the block. -/
def bt_mesh_delete_entry_link_drop (e : RouteEntry) (st : MeshState) : MeshState :=
  { st with valid := removeById e.eid st.valid }

/-- `bt_mesh_refresh_lifetime_invalid`: re-initialise and restart the
entry's timer in place with `bt_mesh_delete_entry_invalid` and `LIFETIME`;
list membership is untouched. -/
def bt_mesh_refresh_lifetime_invalid (e : RouteEntry) (st : MeshState) : MeshState :=
  let rearm : RouteEntry → RouteEntry :=
    fun x => { x with timer := ⟨TimerCb.deleteInvalid, LIFETIME⟩ }
  { st with invalid := updateFirst (fun x => x.eid == e.eid) rearm st.invalid }

/-! ## Control-message data (aodv_control_messages.h) -/

/-- `struct rreq_data`.  The one-bit fields G, D, U, I are booleans. -/
structure RreqData where
  source_address : Nat
  destination_address : Nat
  next_hop : Nat
  source_number_of_elements : Nat
  G : Bool
  D : Bool
  U : Bool
  I : Bool
  hop_count : Nat
  rssi : Int
  source_sequence_number : Nat
  destination_sequence_number : Nat
deriving DecidableEq, Repr

/-- `struct rrep_data`. -/
structure RrepData where
  R : Bool
  source_address : Nat
  destination_address : Nat
  destination_sequence_number : Nat
  hop_count : Nat
  destination_number_of_elements : Nat
deriving DecidableEq, Repr

/-- `struct rwait_data` (sans the list node). -/
structure RwaitData where
  destination_address : Nat
  source_address : Nat
  source_sequence_number : Nat
  hop_count : Nat
deriving DecidableEq, Repr

/-- The fields of `struct bt_mesh_net_rx` the handlers read: `ctx.addr` (link
layer source), `ctx.net_idx`, `ctx.recv_ttl`, `rx->dst` and `rx->rssi`. -/
structure NetRx where
  addr : Nat
  net_idx : Nat
  recv_ttl : Nat
  dst : Nat
  rssi : Int
deriving DecidableEq, Repr

/-- Local-identity queries of the lower layer: `bt_mesh_elem_find`,
`bt_mesh_elem_count`, `bt_mesh_primary_addr` and
`IS_ENABLED(CONFIG_BT_MESH_RELAY)`. -/
structure Env where
  elemFind : Nat → Bool
  elemCount : Nat
  primaryAddr : Nat
  relayEnabled : Bool

/-- A control message handed to `bt_mesh_ctl_send`, recorded with the TTL /
destination credentials the handler chose. -/
inductive MsgOut where
  | rreq (d : RreqData) (ttl : Nat) (net_idx : Nat) : MsgOut
  | rrep (d : RrepData) (net_idx : Nat) (dst : Nat) : MsgOut
  | rwait (d : RwaitData) (net_idx : Nat) (dst : Nat) : MsgOut
deriving DecidableEq, Repr

/-- A route-entry record with every field zeroed (`memset(entry, 0,
ENTRY_SIZE)`), as handed to the creator's caller. -/
def zeroEntry : RouteEntry :=
  ⟨0, 0, 0, 0, 0, 0, 0, 0, 0, false, 0, ⟨TimerCb.deleteValid, 0⟩⟩

/-- `#define INRANGE(new_seq, existing_seq) ((new_seq > existing_seq) ? 1 : 0)`. -/
def INRANGE (new_seq existing_seq : Nat) : Bool := decide (new_seq > existing_seq)

/-- The combined route metric `hop_count*10 + (rssi*10)/RSSI_MIN` compared at
aodv_control_messages.c:330; `Int.tdiv` is the C99 `/` (truncation toward
zero). -/
def combinedMetric (hop_count : Nat) (rssi : Int) : Int :=
  (hop_count : Int) * 10 + Int.tdiv (rssi * 10) RSSI_MIN

/-! ## RREQ receive (bt_mesh_trans_rreq_recv) -/

/-- The in-place overwrite of a stored invalid reverse entry performed when
a better-metric duplicate RREQ arrives (aodv_control_messages.c:332-335):
sequence number, hop count, next hop and rssi take the incoming values. -/
def rreqOverwrite (d : RreqData) (e : RouteEntry) : RouteEntry :=
  { e with destination_sequence_number := d.destination_sequence_number,
           hop_count := d.hop_count,
           next_hop := d.next_hop,
           rssi := d.rssi }

/-- The pure-relay tail of `bt_mesh_trans_rreq_recv`
(aodv_control_messages.c:408-448): create the reverse entry and relay when
it is absent, refresh and relay when the stored sequence number is older
than the received source sequence number, drop otherwise.  The relayed
RREQ's TTL is the u8 value `rx->ctx.recv_ttl - 1`. -/
def bt_mesh_trans_rreq_recv_relay (rx : NetRx) (d : RreqData) (st : MeshState) :
    MeshState × List MsgOut × Int :=
  match bt_mesh_search_invalid_destination d.destination_address d.source_address rx.net_idx st with
  | none =>
    let fields : RouteEntry :=
      { zeroEntry with
          source_address := d.destination_address,
          destination_address := d.source_address,
          destination_sequence_number := d.source_sequence_number,
          next_hop := d.next_hop,
          source_number_of_elements := 1,
          destination_number_of_elements := d.source_number_of_elements,
          hop_count := d.hop_count,
          rssi := d.rssi,
          net_idx := rx.net_idx }
    let created := bt_mesh_create_entry_invalid fields st
    if created.2 then
      let d1 : RreqData := { d with next_hop := d.next_hop + 1 }
      (created.1, [MsgOut.rreq d1 ((rx.recv_ttl + 255) % 256) rx.net_idx], 0)
    else (st, [], -ENOSR)
  | some entry =>
    if entry.destination_sequence_number < d.source_sequence_number then
      let refresh : RouteEntry → RouteEntry := fun e =>
        { e with destination_sequence_number := d.source_sequence_number,
                 rssi := d.rssi,
                 timer := ⟨TimerCb.deleteInvalid, LIFETIME⟩ }
      let st2 := { st with invalid := updateFirst (fun e => e.eid == entry.eid) refresh st.invalid }
      let d1 : RreqData := { d with hop_count := d.hop_count + 1 }
      (st2, [MsgOut.rreq d1 ((rx.recv_ttl + 255) % 256) rx.net_idx], 0)
    else (st, [], 0)

/-- `bt_mesh_trans_rreq_recv` after dissection: the argument `d` is the
`data` struct whose fields were filled from the `RREQ_GET_*` macros, with
`d.rssi` already holding the average `(RREQ_GET_RSSI(buf)*hop +
rx->rssi)/(hop+1)` computed at line 291, and `rawRssiByte` the raw
`RREQ_GET_RSSI(buf)` byte re-read at line 401.  Returns the new state, the
control messages sent, and the C return value (`return false` on the
destination-branch allocation failure compiles to 0). -/
def bt_mesh_trans_rreq_recv (env : Env) (rx : NetRx) (rawRssiByte : Nat)
    (d : RreqData) (st : MeshState) : MeshState × List MsgOut × Int :=
  if env.elemFind d.source_address then
    (st, [], -ELOCAL)
  else if env.elemFind d.destination_address then
    match bt_mesh_search_valid_destination d.destination_address d.source_address rx.net_idx st with
    | some _ => (st, [], -ENORREQ)
    | none =>
      match bt_mesh_search_invalid_destination d.destination_address d.source_address rx.net_idx st with
      | some entry =>
        if combinedMetric d.hop_count d.rssi < combinedMetric entry.hop_count entry.rssi then
          ({ st with invalid := updateFirst (fun e => e.eid == entry.eid) (rreqOverwrite d) st.invalid }, [], 0)
        else (st, [], 0)
      | none =>
        let fields : RouteEntry :=
          { zeroEntry with
              source_address := d.destination_address,
              destination_address := d.source_address,
              destination_sequence_number := d.source_sequence_number,
              next_hop := d.next_hop,
              source_number_of_elements := env.elemCount,
              destination_number_of_elements := d.source_number_of_elements,
              hop_count := d.hop_count,
              rssi := d.rssi,
              net_idx := rx.net_idx }
        let created := bt_mesh_create_entry_invalid_with_cb fields st
        if created.2 then (created.1, [], 0) else (st, [], 0)
  else if env.relayEnabled then
    match bt_mesh_search_valid_destination_without_source d.destination_address rx.net_idx st with
    | some entry =>
      if (d.D == false) && (d.I == false) then
        let fields : RouteEntry :=
          { zeroEntry with
              source_address := d.destination_address,
              destination_address := d.source_address,
              destination_sequence_number := d.source_sequence_number,
              next_hop := d.next_hop,
              source_number_of_elements := 1,
              destination_number_of_elements := d.source_number_of_elements,
              hop_count := d.hop_count,
              rssi := d.rssi,
              net_idx := rx.net_idx }
        let created := bt_mesh_create_entry_invalid fields st
        if created.2 then
          if entry.destination_sequence_number ≥ d.destination_sequence_number then
            let d1 : RreqData := { d with I := true, hop_count := d.hop_count + 1 }
            let avg2 : Int :=
              Int.tdiv ((rawRssiByte : Int) * ((d1.hop_count : Int) + 1) + rx.rssi)
                ((d1.hop_count : Int) + 2)
            let d2 : RreqData := { d1 with rssi := avg2 }
            let fixHop : RouteEntry → RouteEntry := fun e => { e with hop_count := entry.hop_count }
            let st3 := { created.1 with
              invalid := updateFirst (fun e => e.eid == st.nextId) fixHop created.1.invalid }
            (st3,
             [MsgOut.rreq d2 1 rx.net_idx,
              MsgOut.rwait ⟨d2.destination_address, d2.source_address,
                d2.source_sequence_number, entry.hop_count⟩ rx.net_idx d.next_hop],
             0)
          else (created.1, [], 0)
        else (st, [], -ENOSR)
      else
        bt_mesh_trans_rreq_recv_relay rx d st
    | none =>
      bt_mesh_trans_rreq_recv_relay rx d st
  else (st, [], 0)

/-! ## RREP receive (bt_mesh_trans_rrep_recv) -/

/-- `rrep_rwait_list_create_entry`: allocate from `rrep_slab` (capacity 20),
append to `rrep_rwait_list` and copy destination_address and hop_count. -/
def rrep_rwait_list_create_entry (entry_data : PendEntry) (st : MeshState) : MeshState × Int :=
  if st.pend.length < RREP_RWAIT_ENTRIES then
    ({ st with pend := st.pend ++ [entry_data] }, 0)
  else (st, -ENOSR)

/-- `bt_mesh_trans_rrep_recv` after dissection.  The neighbour (hello) list
touched by `add_neighbour` lies outside the routing table and is not part of
`MeshState`.  Note the two failure exits: -ENOSR at the originator, +ENOSR
(sic, line 743) at an intermediate node. -/
def bt_mesh_trans_rrep_recv (env : Env) (rx : NetRx) (d : RrepData) (st : MeshState) :
    MeshState × List MsgOut × Int :=
  if d.source_address == env.primaryAddr then
    let found := bt_mesh_search_valid_destination d.source_address d.destination_address rx.net_idx st
    let proceed : Bool :=
      match found with
      | none => true
      | some fe => INRANGE d.destination_sequence_number fe.destination_sequence_number
    if proceed then
      let st1 :=
        match found with
        | none => st
        | some fe => (bt_mesh_invalidate_route (some fe) st).1
      let fields : RouteEntry :=
        { zeroEntry with
            source_address := d.source_address,
            destination_address := d.destination_address,
            destination_sequence_number := d.destination_sequence_number,
            next_hop := rx.addr,
            hop_count := d.hop_count,
            destination_number_of_elements := d.destination_number_of_elements,
            source_number_of_elements := env.elemCount,
            net_idx := rx.net_idx }
      let created := bt_mesh_create_entry_valid fields st1
      if created.2 then
        let made := rrep_rwait_list_create_entry ⟨d.destination_address, d.hop_count⟩ created.1
        (made.1, [], made.2)
      else (st1, [], -ENOSR)
    else (st, [], 0)
  else
    match bt_mesh_search_invalid_destination_with_range d.destination_address d.source_address
        d.destination_number_of_elements rx.net_idx st with
    | some ee =>
      let ee2 : RouteEntry :=
        { ee with source_number_of_elements := d.destination_number_of_elements,
                  source_address := d.destination_address }
      let fix : RouteEntry → RouteEntry := fun _ => ee2
      let st1 := { st with invalid := updateFirst (fun e => e.eid == ee.eid) fix st.invalid }
      let st2 := (bt_mesh_validate_route (some ee2) st1).1
      let fields : RouteEntry :=
        { zeroEntry with
            source_address := d.source_address,
            destination_address := d.destination_address,
            destination_sequence_number := d.destination_sequence_number,
            next_hop := rx.addr,
            hop_count := d.hop_count,
            destination_number_of_elements := d.destination_number_of_elements,
            source_number_of_elements := ee2.destination_number_of_elements,
            net_idx := rx.net_idx }
      let created := bt_mesh_create_entry_valid fields st2
      if created.2 then
        let d1 : RrepData := { d with hop_count := d.hop_count + 1 }
        (created.1, [MsgOut.rrep d1 rx.net_idx ee2.next_hop], 0)
      else (st2, [], ENOSR)
    | none => (st, [], 0)

/-! ## RWAIT receive (bt_mesh_trans_rwait_recv) -/

/-- `bt_mesh_trans_rwait_recv` after dissection (the function returns void). -/
def bt_mesh_trans_rwait_recv (env : Env) (rx : NetRx) (d0 : RwaitData) (st : MeshState) :
    MeshState × List MsgOut :=
  if d0.source_address == env.primaryAddr then
    let d := if d0.hop_count == 0 then { d0 with hop_count := d0.hop_count + 1 } else d0
    match bt_mesh_search_valid_destination rx.addr rx.dst rx.net_idx st with
    | none =>
      let made := rrep_rwait_list_create_entry ⟨d.destination_address, d.hop_count⟩ st
      (made.1, [])
    | some _ => (st, [])
  else
    match bt_mesh_search_invalid_destination rx.addr rx.dst rx.net_idx st with
    | none => (st, [MsgOut.rwait d0 rx.net_idx rx.addr])
    | some _ => (st, [])

/-! ## RREQ wire codec (rreq_send and the RREQ_GET_* macros) -/

/-- The two's-complement byte a `net_buf_simple_add_mem(&buf, &data->rssi, 1)`
stores for the signed 8-bit `rssi`. -/
def s8byte (r : Int) : Nat := (r % 256).toNat

/-- Reinterpretation of a byte as a signed 8-bit value (what a C assignment
of the byte back into an `s8_t` yields). -/
def byteToS8 (b : Nat) : Int := if b < 128 then (b : Int) else (b : Int) - 256

/-- The flag byte `data->G + (data->D << 1) + (data->U << 2) + (data->I << 3)`
built at aodv_control_messages.c:165. -/
def rreqFlagsByte (d : RreqData) : Nat :=
  d.G.toNat + d.D.toNat * 2 + d.U.toNat * 4 + d.I.toNat * 8

/-- The SDU built by `rreq_send`: each `net_buf_simple_add_mem` call copies
the low bytes of the field little-endian (the target is little-endian);
the three-byte destination sequence number is appended only when `U == 0`. -/
def rreq_send_buf (d : RreqData) : List Nat :=
  [d.source_address % 256, d.source_address / 256 % 256,
   d.destination_address % 256, d.destination_address / 256 % 256,
   d.source_number_of_elements % 256, d.source_number_of_elements / 256 % 256,
   d.hop_count % 256,
   s8byte d.rssi,
   rreqFlagsByte d,
   d.source_sequence_number % 256, d.source_sequence_number / 256 % 256,
   d.source_sequence_number / 65536 % 256] ++
  (if d.U then [] else
   [d.destination_sequence_number % 256, d.destination_sequence_number / 256 % 256,
    d.destination_sequence_number / 65536 % 256])

/-- `RREQ_GET_SRC_ADDR(buf)`: `buf->data[0] + (buf->data[1] << 8)`. -/
def RREQ_GET_SRC_ADDR (b : List Nat) : Nat := b.getD 0 0 + b.getD 1 0 * 256

/-- `RREQ_GET_DST_ADDR(buf)`: `buf->data[2] + (buf->data[3] << 8)`. -/
def RREQ_GET_DST_ADDR (b : List Nat) : Nat := b.getD 2 0 + b.getD 3 0 * 256

/-- `RREQ_GET_SRC_NUMBER_OF_ELEMENTS(buf)`: `buf->data[4] + (buf->data[5] << 8)`. -/
def RREQ_GET_SRC_NUMBER_OF_ELEMENTS (b : List Nat) : Nat := b.getD 4 0 + b.getD 5 0 * 256

/-- `RREQ_GET_HOP_COUNT(buf)`: `buf->data[6]`. -/
def RREQ_GET_HOP_COUNT (b : List Nat) : Nat := b.getD 6 0

/-- `RREQ_GET_RSSI(buf)`: `buf->data[7]` (the raw byte; C performs no sign
extension in the macro itself). -/
def RREQ_GET_RSSI (b : List Nat) : Nat := b.getD 7 0

/-- `RREQ_GET_G_FLAG(buf)`: `buf->data[8] & 0x01`. -/
def RREQ_GET_G_FLAG (b : List Nat) : Nat := b.getD 8 0 &&& 0x01

/-- `RREQ_GET_D_FLAG(buf)`: `(buf->data[8] & 0x02) >> 1`. -/
def RREQ_GET_D_FLAG (b : List Nat) : Nat := (b.getD 8 0 &&& 0x02) >>> 1

/-- `RREQ_GET_U_FLAG(buf)`: `(buf->data[8] & 0x04) >> 2`. -/
def RREQ_GET_U_FLAG (b : List Nat) : Nat := (b.getD 8 0 &&& 0x04) >>> 2

/-- `RREQ_GET_I_FLAG(buf)`: `(buf->data[8] & 0x08) >> 3`. -/
def RREQ_GET_I_FLAG (b : List Nat) : Nat := (b.getD 8 0 &&& 0x08) >>> 3

/-- `RREQ_GET_SRC_SEQ(buf)`: `buf->data[9] + (buf->data[10] << 8) + (buf->data[11] << 16)`. -/
def RREQ_GET_SRC_SEQ (b : List Nat) : Nat :=
  b.getD 9 0 + b.getD 10 0 * 256 + b.getD 11 0 * 65536

/-- `RREQ_GET_DST_SEQ(buf)`: `buf->data[12] + (buf->data[13] << 8) + (buf->data[14] << 16)`. -/
def RREQ_GET_DST_SEQ (b : List Nat) : Nat :=
  b.getD 12 0 + b.getD 13 0 * 256 + b.getD 14 0 * 65536

/-! ## Ring search (bt_mesh_trans_ring_search) -/

/-- A call of `rreq_send` made by the ring search, recorded with the TTL and
the originator sequence number (`bt_mesh.seq`) it carried. -/
structure RingSend where
  ttl : Nat
  seq : Nat
deriving DecidableEq, Repr

/-- Result of one scan of `rrep_rwait_list` inside the polling loop of
`bt_mesh_trans_ring_search`: `success` when an entry matching the searched
destination was found (the search returns 0), otherwise `cont` with the flag
telling whether an RWAIT hint restarted the ring timer with the quadrupled
interval.  The scan follows the source exactly, including the fact that an
entry removed by the RWAIT branch is still compared against the destination
afterwards (the freed node retains its bytes). -/
inductive ScanOut where
  | success : ScanOut
  | cont (extended : Bool) : ScanOut
deriving DecidableEq, Repr

/-- One `SYS_SLIST_FOR_EACH_CONTAINER` pass of the polling loop over the
contents of `rrep_rwait_list`. -/
def ringScanPending (destination_address : Nat) : List PendEntry → ScanOut
  | [] => ScanOut.cont false
  | e :: rest =>
    if e.hop_count != 0 then
      if e.destination_address == destination_address then ScanOut.success
      else
        match ringScanPending destination_address rest with
        | ScanOut.success => ScanOut.success
        | ScanOut.cont _ => ScanOut.cont true
    else
      if e.destination_address == destination_address then ScanOut.success
      else ringScanPending destination_address rest

/-- The polling loop of `bt_mesh_trans_ring_search`.  The loop shares no
data with the timer thread except the pending list and the ring flag, so the
embedding feeds it two streams indexed by the poll iteration: `pend i` is
the content of `rrep_rwait_list` the i-th pass observes, and `expired i`
tells whether the ring timer fired since the previous pass (the `ring_flag`).
`seqs n` is the n-th read of `bt_mesh.seq`.  Fuel bounds the number of poll
iterations; `none` means the loop was still running after `fuel` passes.
Each pass: scan the list (success returns 0); if the flag is set, increment
the TTL, fetch the latest sequence number, re-send the RREQ, and return
`-ENORREP` once the TTL reaches `RREQ_RING_SEARCH_MAX_TTL`. -/
def ringLoop (pend : Nat → List PendEntry) (expired : Nat → Bool) (seqs : Nat → Nat)
    (destination_address : Nat) :
    Nat → Nat → Nat → Nat → List RingSend → Option (List RingSend × Int)
  | 0, _, _, _, _ => none
  | fuel + 1, i, fetchIdx, ttl, acc =>
    match ringScanPending destination_address (pend i) with
    | ScanOut.success => some (acc.reverse, 0)
    | ScanOut.cont _ =>
      if expired i then
        let sq := seqs fetchIdx
        let acc2 := RingSend.mk (ttl + 1) sq :: acc
        if ttl + 1 == RREQ_RING_SEARCH_MAX_TTL then some (acc2.reverse, -ENORREP)
        else ringLoop pend expired seqs destination_address fuel (i + 1) (fetchIdx + 1) (ttl + 1) acc2
      else ringLoop pend expired seqs destination_address fuel (i + 1) fetchIdx ttl acc

/-- `bt_mesh_trans_ring_search`: the initial RREQ goes out with TTL = 2 and
the sequence number read at entry (`seqs` index 0 is reserved for it via
`seq0`), then the polling loop runs.  The initial U flag / destination
sequence number looked up in the invalid-rerr list do not influence the
TTL/sequence/return behaviour and are left abstract. -/
def bt_mesh_trans_ring_search (pend : Nat → List PendEntry) (expired : Nat → Bool)
    (seqs : Nat → Nat) (destination_address : Nat) (seq0 : Nat) (fuel : Nat) :
    Option (List RingSend × Int) :=
  ringLoop pend expired seqs destination_address fuel 0 0 2 [RingSend.mk 2 seq0]

/-! ## Theorems -/

/-- C10: `bt_mesh_validate_route` and `bt_mesh_invalidate_route` called with
a NULL entry pointer return false and leave the whole state — both lists and
every entry's timer — unchanged. -/
theorem C10_null_entry_noop (st : MeshState) :
    bt_mesh_validate_route none st = (st, false) ∧
    bt_mesh_invalidate_route none st = (st, false) :=
  ⟨rfl, rfl⟩

/-- C2: for a stored entry with destination field (addr, count), the
range-matching search `bt_mesh_search_valid_destination` reports a match at
query address q iff `addr ≤ q < addr + count`; in particular q = addr and
q = addr + count - 1 match while q = addr - 1 and q = addr + count do not. -/
theorem C2_element_range_match (e : RouteEntry)
    (hse : 1 ≤ e.source_number_of_elements)
    (hde : 1 ≤ e.destination_number_of_elements)
    (hda : 1 ≤ e.destination_address) :
    (∀ q : Nat,
      bt_mesh_search_valid_destination e.source_address q e.net_idx
          (MeshState.mk [e] [] [] 0) = some e ↔
        e.destination_address ≤ q ∧
        q < e.destination_address + e.destination_number_of_elements) ∧
    bt_mesh_search_valid_destination e.source_address e.destination_address e.net_idx
      (MeshState.mk [e] [] [] 0) = some e ∧
    bt_mesh_search_valid_destination e.source_address
      (e.destination_address + e.destination_number_of_elements - 1) e.net_idx
      (MeshState.mk [e] [] [] 0) = some e ∧
    bt_mesh_search_valid_destination e.source_address (e.destination_address - 1) e.net_idx
      (MeshState.mk [e] [] [] 0) = none ∧
    bt_mesh_search_valid_destination e.source_address
      (e.destination_address + e.destination_number_of_elements) e.net_idx
      (MeshState.mk [e] [] [] 0) = none := by
  have hfind : ∀ p : RouteEntry → Bool, List.find? p [e] = some e ↔ p e = true := by
    intro p
    cases hp : p e <;> simp [List.find?, hp]
  have key : ∀ q : Nat,
      bt_mesh_search_valid_destination e.source_address q e.net_idx
          (MeshState.mk [e] [] [] 0) = some e ↔
        e.destination_address ≤ q ∧
        q < e.destination_address + e.destination_number_of_elements := by
    intro q
    rw [bt_mesh_search_valid_destination]
    rw [show (MeshState.mk [e] [] [] 0).valid = [e] from rfl]
    rw [hfind]
    simp only [destSrcRangePred, Bool.and_eq_true, decide_eq_true_eq, beq_iff_eq, ge_iff_le,
      and_true]
    constructor <;> intro h <;> omega
  refine ⟨key, ?_, ?_, ?_, ?_⟩
  · exact (key _).mpr ⟨Nat.le_refl _, by omega⟩
  · exact (key _).mpr ⟨by omega, by omega⟩
  · have h := key (e.destination_address - 1)
    cases hres : bt_mesh_search_valid_destination e.source_address (e.destination_address - 1)
        e.net_idx (MeshState.mk [e] [] [] 0) with
    | none => rfl
    | some x =>
      have hx : x = e := by
        have := hres
        simp only [bt_mesh_search_valid_destination] at this
        have hmem := List.mem_of_find?_eq_some this
        simpa using hmem
      rw [hx] at hres
      have := (key _).mp hres
      omega
  · have h := key (e.destination_address + e.destination_number_of_elements)
    cases hres : bt_mesh_search_valid_destination e.source_address
        (e.destination_address + e.destination_number_of_elements) e.net_idx
        (MeshState.mk [e] [] [] 0) with
    | none => rfl
    | some x =>
      have hx : x = e := by
        have := hres
        simp only [bt_mesh_search_valid_destination] at this
        have hmem := List.mem_of_find?_eq_some this
        simpa using hmem
      rw [hx] at hres
      have := (key _).mp hres
      omega

/-- C2 witness at a concrete entry: addr = 0x0010, count = 4. -/
theorem C2_element_range_match_witness :
    bt_mesh_search_valid_destination 0x0001 0x0010 0
      (MeshState.mk [⟨0, 0x0001, 0x0010, 0, 0, 1, 4, 0, 0, false, 0, ⟨TimerCb.deleteValid, 0⟩⟩] [] [] 0) =
      some ⟨0, 0x0001, 0x0010, 0, 0, 1, 4, 0, 0, false, 0, ⟨TimerCb.deleteValid, 0⟩⟩ ∧
    bt_mesh_search_valid_destination 0x0001 0x0013 0
      (MeshState.mk [⟨0, 0x0001, 0x0010, 0, 0, 1, 4, 0, 0, false, 0, ⟨TimerCb.deleteValid, 0⟩⟩] [] [] 0) =
      some ⟨0, 0x0001, 0x0010, 0, 0, 1, 4, 0, 0, false, 0, ⟨TimerCb.deleteValid, 0⟩⟩ ∧
    bt_mesh_search_valid_destination 0x0001 0x000f 0
      (MeshState.mk [⟨0, 0x0001, 0x0010, 0, 0, 1, 4, 0, 0, false, 0, ⟨TimerCb.deleteValid, 0⟩⟩] [] [] 0) = none ∧
    bt_mesh_search_valid_destination 0x0001 0x0014 0
      (MeshState.mk [⟨0, 0x0001, 0x0010, 0, 0, 1, 4, 0, 0, false, 0, ⟨TimerCb.deleteValid, 0⟩⟩] [] [] 0) = none := by
  have h := C2_element_range_match
    ⟨0, 0x0001, 0x0010, 0, 0, 1, 4, 0, 0, false, 0, ⟨TimerCb.deleteValid, 0⟩⟩
    (by decide) (by decide) (by decide)
  exact ⟨h.2.1, h.2.2.1, h.2.2.2.1, h.2.2.2.2⟩

/-- C5: decoding the buffer built by `rreq_send` through the `RREQ_GET_*`
macros reproduces every encoded field — the addresses, element count, hop
count, the rssi byte (bitwise, i.e. as the two's-complement byte whose s8
reinterpretation is the original value), the four flag bits and the 3-byte
source sequence number — and the 3-byte destination sequence number exists
in the buffer exactly when U = 0 (buffer length 15 with it, 12 without). -/
theorem C5_rreq_codec_roundtrip (d : RreqData)
    (h1 : d.source_address < 65536) (h2 : d.destination_address < 65536)
    (h3 : d.source_number_of_elements < 65536) (h4 : d.hop_count < 256)
    (h5 : -128 ≤ d.rssi) (h6 : d.rssi < 128)
    (h7 : d.source_sequence_number < 16777216)
    (h8 : d.destination_sequence_number < 16777216) :
    RREQ_GET_SRC_ADDR (rreq_send_buf d) = d.source_address ∧
    RREQ_GET_DST_ADDR (rreq_send_buf d) = d.destination_address ∧
    RREQ_GET_SRC_NUMBER_OF_ELEMENTS (rreq_send_buf d) = d.source_number_of_elements ∧
    RREQ_GET_HOP_COUNT (rreq_send_buf d) = d.hop_count ∧
    RREQ_GET_RSSI (rreq_send_buf d) = s8byte d.rssi ∧
    byteToS8 (RREQ_GET_RSSI (rreq_send_buf d)) = d.rssi ∧
    RREQ_GET_G_FLAG (rreq_send_buf d) = d.G.toNat ∧
    RREQ_GET_D_FLAG (rreq_send_buf d) = d.D.toNat ∧
    RREQ_GET_U_FLAG (rreq_send_buf d) = d.U.toNat ∧
    RREQ_GET_I_FLAG (rreq_send_buf d) = d.I.toNat ∧
    RREQ_GET_SRC_SEQ (rreq_send_buf d) = d.source_sequence_number ∧
    (d.U = false →
      RREQ_GET_DST_SEQ (rreq_send_buf d) = d.destination_sequence_number ∧
      (rreq_send_buf d).length = 15) ∧
    (d.U = true → (rreq_send_buf d).length = 12) := by
  have hflags : rreqFlagsByte d = d.G.toNat + d.D.toNat * 2 + d.U.toNat * 4 + d.I.toNat * 8 := rfl
  cases hU : d.U
  · refine ⟨?_, ?_, ?_, ?_, ?_, ?_, ?_, ?_, ?_, ?_, ?_, ?_, ?_⟩
    · simp only [RREQ_GET_SRC_ADDR, rreq_send_buf, hU, if_neg Bool.false_ne_true,
        List.cons_append, List.nil_append, List.getD_cons_zero, List.getD_cons_succ]
      omega
    · simp only [RREQ_GET_DST_ADDR, rreq_send_buf, hU, if_neg Bool.false_ne_true,
        List.cons_append, List.nil_append, List.getD_cons_zero, List.getD_cons_succ]
      omega
    · simp only [RREQ_GET_SRC_NUMBER_OF_ELEMENTS, rreq_send_buf, hU, if_neg Bool.false_ne_true,
        List.cons_append, List.nil_append, List.getD_cons_zero, List.getD_cons_succ]
      omega
    · simp only [RREQ_GET_HOP_COUNT, rreq_send_buf, hU, if_neg Bool.false_ne_true,
        List.cons_append, List.nil_append, List.getD_cons_zero, List.getD_cons_succ]
      omega
    · simp only [RREQ_GET_RSSI, rreq_send_buf, hU, if_neg Bool.false_ne_true,
        List.cons_append, List.nil_append, List.getD_cons_zero, List.getD_cons_succ]
    · simp only [RREQ_GET_RSSI, rreq_send_buf, hU, if_neg Bool.false_ne_true,
        List.cons_append, List.nil_append, List.getD_cons_zero, List.getD_cons_succ,
        byteToS8, s8byte]
      omega
    · simp only [RREQ_GET_G_FLAG, rreq_send_buf, hU, if_neg Bool.false_ne_true,
        List.cons_append, List.nil_append, List.getD_cons_zero, List.getD_cons_succ, hflags]
      cases d.G <;> cases d.D <;> cases d.I <;> simp [hU] <;> rfl
    · simp only [RREQ_GET_D_FLAG, rreq_send_buf, hU, if_neg Bool.false_ne_true,
        List.cons_append, List.nil_append, List.getD_cons_zero, List.getD_cons_succ, hflags]
      cases d.G <;> cases d.D <;> cases d.I <;> simp [hU] <;> rfl
    · simp only [RREQ_GET_U_FLAG, rreq_send_buf, hU, if_neg Bool.false_ne_true,
        List.cons_append, List.nil_append, List.getD_cons_zero, List.getD_cons_succ, hflags]
      cases d.G <;> cases d.D <;> cases d.I <;> simp [hU] <;> rfl
    · simp only [RREQ_GET_I_FLAG, rreq_send_buf, hU, if_neg Bool.false_ne_true,
        List.cons_append, List.nil_append, List.getD_cons_zero, List.getD_cons_succ, hflags]
      cases d.G <;> cases d.D <;> cases d.I <;> simp [hU] <;> rfl
    · simp only [RREQ_GET_SRC_SEQ, rreq_send_buf, hU, if_neg Bool.false_ne_true,
        List.cons_append, List.nil_append, List.getD_cons_zero, List.getD_cons_succ]
      omega
    · intro _
      constructor
      · simp only [RREQ_GET_DST_SEQ, rreq_send_buf, hU, if_neg Bool.false_ne_true,
          List.cons_append, List.nil_append, List.getD_cons_zero, List.getD_cons_succ]
        omega
      · simp [rreq_send_buf, hU]
    · intro hcontra
      cases hcontra
  · refine ⟨?_, ?_, ?_, ?_, ?_, ?_, ?_, ?_, ?_, ?_, ?_, ?_, ?_⟩
    · simp only [RREQ_GET_SRC_ADDR, rreq_send_buf, hU, if_pos rfl,
        List.cons_append, List.nil_append, List.getD_cons_zero, List.getD_cons_succ]
      omega
    · simp only [RREQ_GET_DST_ADDR, rreq_send_buf, hU, if_pos rfl,
        List.cons_append, List.nil_append, List.getD_cons_zero, List.getD_cons_succ]
      omega
    · simp only [RREQ_GET_SRC_NUMBER_OF_ELEMENTS, rreq_send_buf, hU, if_pos rfl,
        List.cons_append, List.nil_append, List.getD_cons_zero, List.getD_cons_succ]
      omega
    · simp only [RREQ_GET_HOP_COUNT, rreq_send_buf, hU, if_pos rfl,
        List.cons_append, List.nil_append, List.getD_cons_zero, List.getD_cons_succ]
      omega
    · simp only [RREQ_GET_RSSI, rreq_send_buf, hU, if_pos rfl,
        List.cons_append, List.nil_append, List.getD_cons_zero, List.getD_cons_succ]
    · simp only [RREQ_GET_RSSI, rreq_send_buf, hU, if_pos rfl,
        List.cons_append, List.nil_append, List.getD_cons_zero, List.getD_cons_succ,
        byteToS8, s8byte]
      omega
    · simp only [RREQ_GET_G_FLAG, rreq_send_buf, hU, if_pos rfl,
        List.cons_append, List.nil_append, List.getD_cons_zero, List.getD_cons_succ, hflags]
      cases d.G <;> cases d.D <;> cases d.I <;> simp [hU] <;> rfl
    · simp only [RREQ_GET_D_FLAG, rreq_send_buf, hU, if_pos rfl,
        List.cons_append, List.nil_append, List.getD_cons_zero, List.getD_cons_succ, hflags]
      cases d.G <;> cases d.D <;> cases d.I <;> simp [hU] <;> rfl
    · simp only [RREQ_GET_U_FLAG, rreq_send_buf, hU, if_pos rfl,
        List.cons_append, List.nil_append, List.getD_cons_zero, List.getD_cons_succ, hflags]
      cases d.G <;> cases d.D <;> cases d.I <;> simp [hU] <;> rfl
    · simp only [RREQ_GET_I_FLAG, rreq_send_buf, hU, if_pos rfl,
        List.cons_append, List.nil_append, List.getD_cons_zero, List.getD_cons_succ, hflags]
      cases d.G <;> cases d.D <;> cases d.I <;> simp [hU] <;> rfl
    · simp only [RREQ_GET_SRC_SEQ, rreq_send_buf, hU, if_pos rfl,
        List.cons_append, List.nil_append, List.getD_cons_zero, List.getD_cons_succ]
      omega
    · intro hcontra
      cases hcontra
    · intro _
      simp [rreq_send_buf, hU]

/-- C5 witness: a concrete RREQ struct with U = 0 round-trips through the codec. -/
theorem C5_rreq_codec_roundtrip_witness :
    RREQ_GET_SRC_ADDR (rreq_send_buf ⟨0x1234, 0xabcd, 7, 3, true, false, false, true, 5, -60, 0x010203, 0x040506⟩) = 0x1234 ∧
    RREQ_GET_DST_SEQ (rreq_send_buf ⟨0x1234, 0xabcd, 7, 3, true, false, false, true, 5, -60, 0x010203, 0x040506⟩) = 0x040506 ∧
    byteToS8 (RREQ_GET_RSSI (rreq_send_buf ⟨0x1234, 0xabcd, 7, 3, true, false, false, true, 5, -60, 0x010203, 0x040506⟩)) = -60 := by
  have h := C5_rreq_codec_roundtrip ⟨0x1234, 0xabcd, 7, 3, true, false, false, true, 5, -60, 0x010203, 0x040506⟩
    (by decide) (by decide) (by decide) (by decide) (by decide) (by decide) (by decide) (by decide)
  exact ⟨h.1, (h.2.2.2.2.2.2.2.2.2.2.2.1 rfl).1, h.2.2.2.2.2.1⟩

/-- When a search found `a` as the first `p`-match and the in-place update
keyed by `a`'s identity preserves both `p` and the identity, re-running the
search finds the updated record (record identities must be pairwise
distinct, as the slab guarantees). -/
theorem find_updateFirst_eid (p : RouteEntry → Bool) (f : RouteEntry → RouteEntry)
    (a : RouteEntry) :
    ∀ l : List RouteEntry, (l.map RouteEntry.eid).Nodup → l.find? p = some a →
      p (f a) = true → (f a).eid = a.eid →
      (updateFirst (fun e => e.eid == a.eid) f l).find? p = some (f a) := by
  intro l
  induction l with
  | nil => intro _ hfind _ _; cases hfind
  | cons x xs ih =>
    intro hnd hfind hpf hid
    cases hx : p x with
    | true =>
      rw [List.find?_cons_of_pos _ hx] at hfind
      have hax : x = a := by injection hfind
      subst hax
      show List.find? p (if (x.eid == x.eid) then f x :: xs else _) = some (f x)
      rw [if_pos (by simp)]
      rw [List.find?_cons_of_pos _ hpf]
    | false =>
      rw [List.find?_cons_of_neg _ (by simp [hx])] at hfind
      have hmem : a ∈ xs := List.mem_of_find?_eq_some hfind
      have hne : x.eid ≠ a.eid := by
        simp only [List.map_cons, List.nodup_cons] at hnd
        intro heq
        exact hnd.1 (heq ▸ List.mem_map_of_mem RouteEntry.eid hmem)
      show List.find? p (if (x.eid == a.eid) then _ else x :: updateFirst _ f xs) = some (f a)
      rw [if_neg (by simpa using hne)]
      rw [List.find?_cons_of_neg _ (by simp [hx])]
      exact ih (by simp only [List.map_cons, List.nodup_cons] at hnd; exact hnd.2) hfind hpf hid

/-- C3: when `bt_mesh_trans_rreq_recv` runs at the RREQ destination and an
invalid reverse entry for (destination, source, net_idx) exists (and no
valid one does), the stored entry's sequence number, hop count, next hop and
rssi are overwritten with the incoming values iff the incoming combined
metric is strictly lower than the stored one; otherwise the state is
untouched; the handler returns 0 (success) in both cases and sends nothing. -/
theorem C3_rreq_metric_tiebreak (env : Env) (rx : NetRx) (raw : Nat) (d : RreqData)
    (st : MeshState) (entry : RouteEntry)
    (hs : env.elemFind d.source_address = false)
    (hd : env.elemFind d.destination_address = true)
    (hv : bt_mesh_search_valid_destination d.destination_address d.source_address rx.net_idx st = none)
    (hi : bt_mesh_search_invalid_destination d.destination_address d.source_address rx.net_idx st = some entry)
    (hnd : (st.invalid.map RouteEntry.eid).Nodup) :
    (bt_mesh_trans_rreq_recv env rx raw d st).2.2 = 0 ∧
    (bt_mesh_trans_rreq_recv env rx raw d st).2.1 = [] ∧
    (bt_mesh_trans_rreq_recv env rx raw d st).1.valid = st.valid ∧
    (bt_mesh_trans_rreq_recv env rx raw d st).1.pend = st.pend ∧
    (combinedMetric d.hop_count d.rssi < combinedMetric entry.hop_count entry.rssi →
      bt_mesh_search_invalid_destination d.destination_address d.source_address rx.net_idx
          (bt_mesh_trans_rreq_recv env rx raw d st).1 = some (rreqOverwrite d entry)) ∧
    (¬ combinedMetric d.hop_count d.rssi < combinedMetric entry.hop_count entry.rssi →
      (bt_mesh_trans_rreq_recv env rx raw d st).1 = st) := by
  have hred : bt_mesh_trans_rreq_recv env rx raw d st =
      if combinedMetric d.hop_count d.rssi < combinedMetric entry.hop_count entry.rssi then
        ({ st with invalid := updateFirst (fun e => e.eid == entry.eid) (rreqOverwrite d) st.invalid }, [], 0)
      else (st, [], 0) := by
    rw [bt_mesh_trans_rreq_recv, hs, hd, hv, hi]
    simp
  by_cases hlt : combinedMetric d.hop_count d.rssi < combinedMetric entry.hop_count entry.rssi
  · rw [hred, if_pos hlt]
    refine ⟨rfl, rfl, rfl, rfl, fun _ => ?_, fun hc => absurd hlt hc⟩
    rw [bt_mesh_search_invalid_destination] at hi ⊢
    exact find_updateFirst_eid _ _ entry st.invalid hnd hi
      (by
        have := List.find?_some hi
        simp only [destSrcRangePred, Bool.and_eq_true] at this ⊢
        exact this)
      rfl
  · rw [hred, if_neg hlt]
    exact ⟨rfl, rfl, rfl, rfl, fun hc => absurd hc hlt, fun _ => rfl⟩

/-- C3 witness: the destination holds an invalid reverse entry with metric
M = 3·10 + (-60·10)/(-90) = 36 and an RREQ with metric M = 2·10 +
(-80·10)/(-90) = 28 arrives: the entry is overwritten and 0 returned. -/
theorem C3_rreq_metric_tiebreak_witness :
    (bt_mesh_trans_rreq_recv
        ⟨fun a => a == 3, 1, 3, true⟩ ⟨9, 0, 5, 3, -80⟩ 0
        ⟨1, 3, 9, 1, false, false, false, false, 2, -80, 7, 6⟩
        ⟨[], [⟨0, 3, 1, 5, 4, 1, 1, 3, -60, false, 0, ⟨TimerCb.rreqRecvCb, RREQ_INTERVAL_WAIT⟩⟩], [], 1⟩).2.2 = 0 ∧
    bt_mesh_search_invalid_destination 3 1 0
      (bt_mesh_trans_rreq_recv
        ⟨fun a => a == 3, 1, 3, true⟩ ⟨9, 0, 5, 3, -80⟩ 0
        ⟨1, 3, 9, 1, false, false, false, false, 2, -80, 7, 6⟩
        ⟨[], [⟨0, 3, 1, 5, 4, 1, 1, 3, -60, false, 0, ⟨TimerCb.rreqRecvCb, RREQ_INTERVAL_WAIT⟩⟩], [], 1⟩).1 =
      some ⟨0, 3, 1, 6, 9, 1, 1, 2, -80, false, 0, ⟨TimerCb.rreqRecvCb, RREQ_INTERVAL_WAIT⟩⟩ := by
  have h := C3_rreq_metric_tiebreak
    ⟨fun a => a == 3, 1, 3, true⟩ ⟨9, 0, 5, 3, -80⟩ 0
    ⟨1, 3, 9, 1, false, false, false, false, 2, -80, 7, 6⟩
    ⟨[], [⟨0, 3, 1, 5, 4, 1, 1, 3, -60, false, 0, ⟨TimerCb.rreqRecvCb, RREQ_INTERVAL_WAIT⟩⟩], [], 1⟩
    ⟨0, 3, 1, 5, 4, 1, 1, 3, -60, false, 0, ⟨TimerCb.rreqRecvCb, RREQ_INTERVAL_WAIT⟩⟩
    (by decide) (by decide) (by decide) (by decide) (by decide)
  exact ⟨h.1, h.2.2.2.2.1 (by decide)⟩

/-- C8: `bt_mesh_trans_rreq_recv` drops an RREQ whose source is a local
element with the -ELOCAL error, and — when the source is not local — drops
an RREQ whose destination is local while a valid (destination, source)
entry already exists in the receive net_idx with the -ENORREQ
(already-replied) error; in both drop cases the state (routing table and
pending list) and the set of sent messages are untouched. -/
theorem C8_drop_cases (env : Env) (rx : NetRx) (raw : Nat) (d : RreqData) (st : MeshState) :
    (env.elemFind d.source_address = true →
      bt_mesh_trans_rreq_recv env rx raw d st = (st, [], -ELOCAL)) ∧
    (env.elemFind d.source_address = false → env.elemFind d.destination_address = true →
      ∀ e : RouteEntry,
        bt_mesh_search_valid_destination d.destination_address d.source_address rx.net_idx st = some e →
        bt_mesh_trans_rreq_recv env rx raw d st = (st, [], -ENORREQ)) := by
  constructor
  · intro hsrc
    rw [bt_mesh_trans_rreq_recv, hsrc]
    simp
  · intro hsrc hdst e hfound
    rw [bt_mesh_trans_rreq_recv, hsrc, hdst, hfound]
    simp

/-- C8 witness: both drop cases at concrete inputs. -/
theorem C8_drop_cases_witness :
    bt_mesh_trans_rreq_recv ⟨fun a => a == 1, 1, 1, true⟩ ⟨9, 0, 5, 3, -10⟩ 0
      ⟨1, 3, 9, 1, false, false, false, false, 0, -10, 7, 6⟩ initState = (initState, [], -ELOCAL) ∧
    bt_mesh_trans_rreq_recv ⟨fun a => a == 3, 1, 3, true⟩ ⟨9, 0, 5, 3, -10⟩ 0
      ⟨1, 3, 9, 1, false, false, false, false, 0, -10, 7, 6⟩
      ⟨[⟨0, 3, 1, 5, 4, 1, 1, 3, -60, false, 0, ⟨TimerCb.deleteValid, LIFETIME⟩⟩], [], [], 1⟩ =
      (⟨[⟨0, 3, 1, 5, 4, 1, 1, 3, -60, false, 0, ⟨TimerCb.deleteValid, LIFETIME⟩⟩], [], [], 1⟩, [], -ENORREQ) := by
  constructor
  · exact (C8_drop_cases ⟨fun a => a == 1, 1, 1, true⟩ ⟨9, 0, 5, 3, -10⟩ 0
      ⟨1, 3, 9, 1, false, false, false, false, 0, -10, 7, 6⟩ initState).1 (by decide)
  · exact (C8_drop_cases ⟨fun a => a == 3, 1, 3, true⟩ ⟨9, 0, 5, 3, -10⟩ 0
      ⟨1, 3, 9, 1, false, false, false, false, 0, -10, 7, 6⟩
      ⟨[⟨0, 3, 1, 5, 4, 1, 1, 3, -60, false, 0, ⟨TimerCb.deleteValid, LIFETIME⟩⟩], [], [], 1⟩).2
      (by decide) (by decide)
      ⟨0, 3, 1, 5, 4, 1, 1, 3, -60, false, 0, ⟨TimerCb.deleteValid, LIFETIME⟩⟩ (by decide)

/-- Removing a record identity that occurs in none of the list's entries is
a no-op (the `sys_slist_find_and_remove` walk falls off the end). -/
theorem removeById_of_forall_ne (k : Nat) :
    ∀ l : List RouteEntry, (∀ e ∈ l, e.eid ≠ k) → removeById k l = l := by
  intro l
  induction l with
  | nil => intro _; rfl
  | cons x xs ih =>
    intro h
    rw [removeById, List.eraseP_cons]
    have hx : (x.eid == k) = false := by
      simpa using h x (List.mem_cons_self x xs)
    rw [hx]
    show x :: removeById k xs = x :: xs
    rw [ih fun e he => h e (List.mem_cons_of_mem x he)]

/-- C7 counterexample: `bt_mesh_validate_route` is not idempotent.  Starting
from an invalid list holding the single entry below, one application moves
the record to the valid list; applying the operation again to the same
record appends its node to the valid list a second time (the intrusive
`sys_slist_append` links the node unconditionally), so the state after two
applications differs from the state after one. -/
theorem C7_idempotence_counterexample :
    (bt_mesh_validate_route
        (some ⟨0, 1, 2, 3, 4, 5, 6, 7, -8, false, 9, ⟨TimerCb.deleteValid, LIFETIME⟩⟩)
        ((bt_mesh_validate_route
          (some ⟨0, 1, 2, 3, 4, 5, 6, 7, -8, false, 9, ⟨TimerCb.deleteInvalid, LIFETIME⟩⟩)
          ⟨[], [⟨0, 1, 2, 3, 4, 5, 6, 7, -8, false, 9, ⟨TimerCb.deleteInvalid, LIFETIME⟩⟩], [], 1⟩).1)).1 ≠
      (bt_mesh_validate_route
        (some ⟨0, 1, 2, 3, 4, 5, 6, 7, -8, false, 9, ⟨TimerCb.deleteInvalid, LIFETIME⟩⟩)
        ⟨[], [⟨0, 1, 2, 3, 4, 5, 6, 7, -8, false, 9, ⟨TimerCb.deleteInvalid, LIFETIME⟩⟩], [], 1⟩).1 ∧
    (bt_mesh_validate_route
        (some ⟨0, 1, 2, 3, 4, 5, 6, 7, -8, false, 9, ⟨TimerCb.deleteValid, LIFETIME⟩⟩)
        ((bt_mesh_validate_route
          (some ⟨0, 1, 2, 3, 4, 5, 6, 7, -8, false, 9, ⟨TimerCb.deleteInvalid, LIFETIME⟩⟩)
          ⟨[], [⟨0, 1, 2, 3, 4, 5, 6, 7, -8, false, 9, ⟨TimerCb.deleteInvalid, LIFETIME⟩⟩], [], 1⟩).1)).1.valid =
      [⟨0, 1, 2, 3, 4, 5, 6, 7, -8, false, 9, ⟨TimerCb.deleteValid, LIFETIME⟩⟩,
       ⟨0, 1, 2, 3, 4, 5, 6, 7, -8, false, 9, ⟨TimerCb.deleteValid, LIFETIME⟩⟩] := by
  constructor
  · decide
  · decide

/-- C7 (amended): for an entry e in the valid list (record identities
pairwise distinct), `bt_mesh_invalidate_route` followed by
`bt_mesh_validate_route` on the same record returns it to the valid list
with every routing field unchanged and the lifetime timer re-armed with the
valid-list deleter and LIFETIME, leaving the invalid list, the pending list
and the allocation counter as before; the operations are, however, not
idempotent: re-applying `bt_mesh_validate_route` (resp.
`bt_mesh_invalidate_route`) appends the record's node to the target list a
second time instead of leaving the state unchanged. -/
theorem C7_invalidate_validate_roundtrip (st : MeshState) (e : RouteEntry)
    (he : e ∈ st.valid)
    (hnd : ((st.valid ++ st.invalid).map RouteEntry.eid).Nodup) :
    ((bt_mesh_validate_route (some { e with timer := ⟨TimerCb.deleteInvalid, LIFETIME⟩ })
        ((bt_mesh_invalidate_route (some e) st).1)).1.valid =
      removeById e.eid st.valid ++ [{ e with timer := ⟨TimerCb.deleteValid, LIFETIME⟩ }]) ∧
    ((bt_mesh_validate_route (some { e with timer := ⟨TimerCb.deleteInvalid, LIFETIME⟩ })
        ((bt_mesh_invalidate_route (some e) st).1)).1.invalid = st.invalid) ∧
    ((bt_mesh_validate_route (some { e with timer := ⟨TimerCb.deleteInvalid, LIFETIME⟩ })
        ((bt_mesh_invalidate_route (some e) st).1)).1.pend = st.pend) ∧
    ((bt_mesh_validate_route (some { e with timer := ⟨TimerCb.deleteInvalid, LIFETIME⟩ })
        ((bt_mesh_invalidate_route (some e) st).1)).1.nextId = st.nextId) ∧
    (∀ st2 : MeshState, ∀ x : RouteEntry,
      (bt_mesh_validate_route (some x) st2).1.valid = st2.valid ++ [{ x with timer := ⟨TimerCb.deleteValid, LIFETIME⟩ }]) ∧
    (∀ st2 : MeshState, ∀ x : RouteEntry,
      (bt_mesh_validate_route (some x) st2).1 ≠ st2) := by
  have hnotin : ∀ x ∈ st.invalid, x.eid ≠ e.eid := by
    intro x hx heq
    rw [List.map_append] at hnd
    have hdisj := List.disjoint_of_nodup_append hnd
    exact hdisj (heq ▸ List.mem_map_of_mem RouteEntry.eid he)
      (List.mem_map_of_mem RouteEntry.eid hx)
  refine ⟨?_, ?_, rfl, rfl, fun st2 x => rfl, fun st2 x hcontra => ?_⟩
  · rfl
  · show removeById e.eid (st.invalid ++ [{ e with timer := ⟨TimerCb.deleteInvalid, LIFETIME⟩ }]) = st.invalid
    rw [removeById, List.eraseP_append_right _ (by simpa using hnotin)]
    simp [List.eraseP_cons]
  · have hv2 : (bt_mesh_validate_route (some x) st2).1.valid =
        st2.valid ++ [{ x with timer := ⟨TimerCb.deleteValid, LIFETIME⟩ }] := rfl
    have hlen := congrArg (fun s : MeshState => s.valid.length) hcontra
    simp only [hv2, List.length_append, List.length_cons, List.length_nil] at hlen
    omega

/-- C7 witness: the round trip applied to a concrete valid entry. -/
theorem C7_invalidate_validate_roundtrip_witness :
    ((bt_mesh_validate_route
        (some ⟨0, 1, 2, 3, 4, 5, 6, 7, -8, false, 9, ⟨TimerCb.deleteInvalid, LIFETIME⟩⟩)
        ((bt_mesh_invalidate_route
          (some ⟨0, 1, 2, 3, 4, 5, 6, 7, -8, false, 9, ⟨TimerCb.deleteValid, LIFETIME⟩⟩)
          ⟨[⟨0, 1, 2, 3, 4, 5, 6, 7, -8, false, 9, ⟨TimerCb.deleteValid, LIFETIME⟩⟩],
           [⟨1, 0, 0, 0, 0, 0, 0, 0, 0, false, 0, ⟨TimerCb.deleteInvalid, LIFETIME⟩⟩], [], 2⟩).1)).1.valid =
      removeById 0 [⟨0, 1, 2, 3, 4, 5, 6, 7, -8, false, 9, ⟨TimerCb.deleteValid, LIFETIME⟩⟩] ++
        [⟨0, 1, 2, 3, 4, 5, 6, 7, -8, false, 9, ⟨TimerCb.deleteValid, LIFETIME⟩⟩]) ∧
    ((bt_mesh_validate_route
        (some ⟨0, 1, 2, 3, 4, 5, 6, 7, -8, false, 9, ⟨TimerCb.deleteInvalid, LIFETIME⟩⟩)
        ((bt_mesh_invalidate_route
          (some ⟨0, 1, 2, 3, 4, 5, 6, 7, -8, false, 9, ⟨TimerCb.deleteValid, LIFETIME⟩⟩)
          ⟨[⟨0, 1, 2, 3, 4, 5, 6, 7, -8, false, 9, ⟨TimerCb.deleteValid, LIFETIME⟩⟩],
           [⟨1, 0, 0, 0, 0, 0, 0, 0, 0, false, 0, ⟨TimerCb.deleteInvalid, LIFETIME⟩⟩], [], 2⟩).1)).1.invalid =
      [⟨1, 0, 0, 0, 0, 0, 0, 0, 0, false, 0, ⟨TimerCb.deleteInvalid, LIFETIME⟩⟩]) := by
  have h := C7_invalidate_validate_roundtrip
    ⟨[⟨0, 1, 2, 3, 4, 5, 6, 7, -8, false, 9, ⟨TimerCb.deleteValid, LIFETIME⟩⟩],
     [⟨1, 0, 0, 0, 0, 0, 0, 0, 0, false, 0, ⟨TimerCb.deleteInvalid, LIFETIME⟩⟩], [], 2⟩
    ⟨0, 1, 2, 3, 4, 5, 6, 7, -8, false, 9, ⟨TimerCb.deleteValid, LIFETIME⟩⟩
    (by decide) (by decide)
  exact ⟨h.1, h.2.1⟩

/-- C9 counterexample: a received RWAIT with hop_count = 0 at the originator
leads to a pending-reply entry whose hop_count is 1, not the received 0
(the handler bumps a zero hop count before storing), so the created entry
does not carry exactly the received hop_count. -/
theorem C9_hopcount_counterexample :
    (bt_mesh_trans_rwait_recv ⟨fun _ => false, 1, 1, true⟩ ⟨2, 0, 4, 1, -10⟩
        ⟨170, 1, 5, 0⟩ initState).1.pend = [⟨170, 1⟩] ∧
    (bt_mesh_trans_rwait_recv ⟨fun _ => false, 1, 1, true⟩ ⟨2, 0, 4, 1, -10⟩
        ⟨170, 1, 5, 0⟩ initState).1.pend ≠
      [⟨170, (⟨170, 1, 5, 0⟩ : RwaitData).hop_count⟩] := by
  constructor
  · decide
  · decide

/-- C9 (amended): when `bt_mesh_trans_rwait_recv` runs at the node whose
primary address equals the RWAIT's source_address, the valid-list lookup for
(rx->ctx.addr, rx->dst) fails, and the pending slab has room, the handler
appends a pending-reply entry carrying the received destination_address and
the received hop_count — except that a received hop_count of 0 is stored as
1 — so the stored hop_count is always nonzero (which is what makes the
ring-search poller extend its timer); the routing-table lists are untouched
and nothing is sent. -/
theorem C9_rwait_pending_entry (env : Env) (rx : NetRx) (d : RwaitData) (st : MeshState)
    (hsrc : d.source_address = env.primaryAddr)
    (hv : bt_mesh_search_valid_destination rx.addr rx.dst rx.net_idx st = none)
    (hcap : st.pend.length < RREP_RWAIT_ENTRIES) :
    (bt_mesh_trans_rwait_recv env rx d st).1.pend =
      st.pend ++ [⟨d.destination_address, if d.hop_count = 0 then 1 else d.hop_count⟩] ∧
    (if d.hop_count = 0 then 1 else d.hop_count) ≠ 0 ∧
    (bt_mesh_trans_rwait_recv env rx d st).1.valid = st.valid ∧
    (bt_mesh_trans_rwait_recv env rx d st).1.invalid = st.invalid ∧
    (bt_mesh_trans_rwait_recv env rx d st).2 = [] := by
  have hred : bt_mesh_trans_rwait_recv env rx d st =
      ((rrep_rwait_list_create_entry
        ⟨d.destination_address, if d.hop_count = 0 then 1 else d.hop_count⟩ st).1, []) := by
    rw [bt_mesh_trans_rwait_recv]
    rw [if_pos (by simp [hsrc])]
    rw [hv]
    by_cases h0 : d.hop_count = 0
    · simp [h0]
    · simp [h0]
  rw [hred, rrep_rwait_list_create_entry, if_pos hcap]
  refine ⟨rfl, ?_, rfl, rfl, rfl⟩
  by_cases h0 : d.hop_count = 0 <;> simp [h0]

/-- C9 witness: a concrete RWAIT with nonzero hop_count creates the pending
entry with exactly that hop_count. -/
theorem C9_rwait_pending_entry_witness :
    (bt_mesh_trans_rwait_recv ⟨fun _ => false, 1, 1, true⟩ ⟨2, 0, 4, 1, -10⟩
        ⟨170, 1, 5, 3⟩ initState).1.pend = [] ++ [⟨170, if (3 : Nat) = 0 then 1 else 3⟩] ∧
    (bt_mesh_trans_rwait_recv ⟨fun _ => false, 1, 1, true⟩ ⟨2, 0, 4, 1, -10⟩
        ⟨170, 1, 5, 3⟩ initState).1.valid = [] := by
  have h := C9_rwait_pending_entry ⟨fun _ => false, 1, 1, true⟩ ⟨2, 0, 4, 1, -10⟩
    ⟨170, 1, 5, 3⟩ initState (by decide) (by decide) (by decide)
  exact ⟨h.1, h.2.2.1⟩

/-- A full routing table (20 live records): one valid route for
(source 1, destination 170) with stored sequence number 5, and 19 invalid
filler records, so every slab block is allocated. -/
def c6FullState : MeshState :=
  ⟨[⟨0, 1, 170, 5, 2, 1, 1, 1, -10, false, 0, ⟨TimerCb.deleteValid, LIFETIME⟩⟩],
   (List.range 19).map (fun i => ⟨i + 1, 0, 0, 0, 0, 0, 0, 0, 0, false, 0,
     ⟨TimerCb.deleteInvalid, LIFETIME⟩⟩),
   [], 20⟩

/-- C6 counterexample: `bt_mesh_trans_rrep_recv` returns the allocation
failure -ENOSR and nevertheless mutates the routing table.  At the RREQ
originator with a full pool, an RREP whose sequence number (9) beats the
stored one (5) first invalidates the stored valid entry, then fails to
allocate the forward entry: the handler returns -ENOSR with the old entry
now moved to the invalid list and not rolled back. -/
theorem C6_partial_state_counterexample :
    (bt_mesh_trans_rrep_recv ⟨fun _ => false, 1, 1, true⟩ ⟨2, 0, 4, 1, -10⟩
        ⟨false, 1, 170, 9, 1, 1⟩ c6FullState).2.2 = -ENOSR ∧
    (bt_mesh_trans_rrep_recv ⟨fun _ => false, 1, 1, true⟩ ⟨2, 0, 4, 1, -10⟩
        ⟨false, 1, 170, 9, 1, 1⟩ c6FullState).1 ≠ c6FullState ∧
    (bt_mesh_trans_rrep_recv ⟨fun _ => false, 1, 1, true⟩ ⟨2, 0, 4, 1, -10⟩
        ⟨false, 1, 170, 9, 1, 1⟩ c6FullState).1.valid = [] := by
  refine ⟨by decide, by decide, by decide⟩

/-- C6 (amended): an allocation failure in `bt_mesh_trans_rrep_recv` leaves
the routing table unchanged provided no valid (source, destination) entry
existed at the originator — the failure path then performs no prior
invalidation: the handler returns -ENOSR and the state is exactly the input
state.  (When a stored entry was invalidated before the failed allocation,
that invalidation persists; see the counterexample.) -/
theorem C6_pool_exhausted_rollback (env : Env) (rx : NetRx) (d : RrepData) (st : MeshState)
    (hsrc : d.source_address = env.primaryAddr)
    (hv : bt_mesh_search_valid_destination d.source_address d.destination_address rx.net_idx st = none)
    (hfull : ¬ liveCount st < NUMBER_OF_ENTRIES) :
    bt_mesh_trans_rrep_recv env rx d st = (st, [], -ENOSR) := by
  have hv2 := hv
  rw [hsrc] at hv2
  rw [bt_mesh_trans_rrep_recv]
  simp only [hsrc, beq_self_eq_true, if_true, hv2, bt_mesh_create_entry_valid, if_neg hfull]
  simp

/-- C6 witness: a full pool of 20 invalid records and an RREP at the
originator with no matching valid entry: -ENOSR, state untouched. -/
theorem C6_pool_exhausted_rollback_witness :
    bt_mesh_trans_rrep_recv ⟨fun _ => false, 1, 1, true⟩ ⟨2, 0, 4, 1, -10⟩
        ⟨false, 1, 170, 9, 1, 1⟩
        ⟨[], (List.range 20).map (fun i => ⟨i, 0, 0, 0, 0, 0, 0, 0, 0, false, 0,
          ⟨TimerCb.deleteInvalid, LIFETIME⟩⟩), [], 20⟩ =
      (⟨[], (List.range 20).map (fun i => ⟨i, 0, 0, 0, 0, 0, 0, 0, 0, false, 0,
          ⟨TimerCb.deleteInvalid, LIFETIME⟩⟩), [], 20⟩, [], -ENOSR) := by
  exact C6_pool_exhausted_rollback ⟨fun _ => false, 1, 1, true⟩ ⟨2, 0, 4, 1, -10⟩
    ⟨false, 1, 170, 9, 1, 1⟩ _ (by decide) (by decide) (by decide)

/-- C4: a ring search during which no RREP or RWAIT entry ever appears in
`rrep_rwait_list` (every poll sees the empty list; the iterations shown are
the ones at which the ring timer fired) sends the first RREQ with TTL = 2,
re-sends on each ring-timer expiry with the TTL incremented by exactly 1 and
a freshly fetched originator sequence number (`seqs 0, seqs 1, ...` in fetch
order), and when the TTL reaches RREQ_RING_SEARCH_MAX_TTL = 10 stops the
ring timer and returns the -ENORREP (NoReply) error — under any sufficient
poll-iteration budget `k + 8`. -/
theorem C4_ring_search_noreply (pend : Nat → List PendEntry) (expired : Nat → Bool)
    (seqs : Nat → Nat) (dst seq0 : Nat)
    (hp : ∀ i, pend i = []) (he : ∀ i, expired i = true) (k : Nat) :
    bt_mesh_trans_ring_search pend expired seqs dst seq0 (k + 8) =
      some ([RingSend.mk 2 seq0, RingSend.mk 3 (seqs 0), RingSend.mk 4 (seqs 1),
             RingSend.mk 5 (seqs 2), RingSend.mk 6 (seqs 3), RingSend.mk 7 (seqs 4),
             RingSend.mk 8 (seqs 5), RingSend.mk 9 (seqs 6), RingSend.mk 10 (seqs 7)],
            -ENORREP) := by
  have step : ∀ n i f ttl acc, ttl + 1 ≠ RREQ_RING_SEARCH_MAX_TTL →
      ringLoop pend expired seqs dst (n + 1) i f ttl acc =
        ringLoop pend expired seqs dst n (i + 1) (f + 1) (ttl + 1)
          (RingSend.mk (ttl + 1) (seqs f) :: acc) := by
    intro n i f ttl acc hne
    rw [ringLoop, hp, he]
    simp [ringScanPending, hne]
  have last : ∀ n i f acc,
      ringLoop pend expired seqs dst (n + 1) i f 9 acc =
        some ((RingSend.mk 10 (seqs f) :: acc).reverse, -ENORREP) := by
    intro n i f acc
    rw [ringLoop, hp, he]
    simp [ringScanPending, RREQ_RING_SEARCH_MAX_TTL]
  rw [bt_mesh_trans_ring_search]
  show ringLoop pend expired seqs dst ((k + 7) + 1) 0 0 2 [RingSend.mk 2 seq0] = _
  rw [step _ _ _ _ _ (by decide)]
  show ringLoop pend expired seqs dst ((k + 6) + 1) _ _ 3 _ = _
  rw [step _ _ _ _ _ (by decide)]
  show ringLoop pend expired seqs dst ((k + 5) + 1) _ _ 4 _ = _
  rw [step _ _ _ _ _ (by decide)]
  show ringLoop pend expired seqs dst ((k + 4) + 1) _ _ 5 _ = _
  rw [step _ _ _ _ _ (by decide)]
  show ringLoop pend expired seqs dst ((k + 3) + 1) _ _ 6 _ = _
  rw [step _ _ _ _ _ (by decide)]
  show ringLoop pend expired seqs dst ((k + 2) + 1) _ _ 7 _ = _
  rw [step _ _ _ _ _ (by decide)]
  show ringLoop pend expired seqs dst ((k + 1) + 1) _ _ 8 _ = _
  rw [step _ _ _ _ _ (by decide)]
  show ringLoop pend expired seqs dst (k + 1) _ _ 9 _ = _
  rw [last]
  simp

/-- C4 witness: concrete streams (always-empty pending list, a timer that
fires at every poll, sequence reads 100, 101, ...) with destination 170. -/
theorem C4_ring_search_noreply_witness :
    bt_mesh_trans_ring_search (fun _ => []) (fun _ => true) (fun n => 100 + n) 170 42 8 =
      some ([RingSend.mk 2 42, RingSend.mk 3 100, RingSend.mk 4 101,
             RingSend.mk 5 102, RingSend.mk 6 103, RingSend.mk 7 104,
             RingSend.mk 8 105, RingSend.mk 9 106, RingSend.mk 10 107],
            -ENORREP) := by
  have h := C4_ring_search_noreply (fun _ => []) (fun _ => true) (fun n => 100 + n) 170 42
    (fun _ => rfl) (fun _ => rfl) 0
  exact h

/-! ## The routing-table invariant (claim C1) -/

/-- The routing-table operations of the core as a transition relation: the
three creators (allocation failure leaves the state unchanged, which the
create functions handle internally), the two state transitions applied to a
record the caller obtained from the corresponding list (or NULL), and the
three deleters — the lifetime-timer deleters fire only on a record whose
timer was armed by its list's creator/transition, hence on a current member
of that list, and the link-drop deleter is applied to valid-list search
results. -/
inductive TableStep : MeshState → MeshState → Prop where
  | createValid (st : MeshState) (fields : RouteEntry) :
      TableStep st (bt_mesh_create_entry_valid fields st).1
  | createInvalid (st : MeshState) (fields : RouteEntry) :
      TableStep st (bt_mesh_create_entry_invalid fields st).1
  | createInvalidCb (st : MeshState) (fields : RouteEntry) :
      TableStep st (bt_mesh_create_entry_invalid_with_cb fields st).1
  | validate (st : MeshState) (e : RouteEntry) (h : e ∈ st.invalid) :
      TableStep st (bt_mesh_validate_route (some e) st).1
  | validateNull (st : MeshState) :
      TableStep st (bt_mesh_validate_route none st).1
  | invalidate (st : MeshState) (e : RouteEntry) (h : e ∈ st.valid) :
      TableStep st (bt_mesh_invalidate_route (some e) st).1
  | invalidateNull (st : MeshState) :
      TableStep st (bt_mesh_invalidate_route none st).1
  | timerDeleteValid (st : MeshState) (e : RouteEntry) (h : e ∈ st.valid) :
      TableStep st (bt_mesh_delete_entry_valid e st)
  | timerDeleteInvalid (st : MeshState) (e : RouteEntry) (h : e ∈ st.invalid) :
      TableStep st (bt_mesh_delete_entry_invalid e st)
  | linkDrop (st : MeshState) (e : RouteEntry) (h : e ∈ st.valid) :
      TableStep st (bt_mesh_delete_entry_link_drop e st)

/-- The inductive invariant: record identities across the two lists are
pairwise distinct (each live record sits in exactly one list, once), the
number of live records never exceeds the slab capacity, and every live
identity is below the allocation counter (freshness). -/
def TableInv (st : MeshState) : Prop :=
  ((st.valid ++ st.invalid).map RouteEntry.eid).Nodup ∧
  liveCount st ≤ NUMBER_OF_ENTRIES ∧
  ∀ e ∈ st.valid ++ st.invalid, e.eid < st.nextId

/-- Appending a fresh element on the left list keeps nodup. -/
theorem nodup_insert_fresh_left (A B : List Nat) (n : Nat)
    (h : (A ++ B).Nodup) (hn : n ∉ A ++ B) : ((A ++ [n]) ++ B).Nodup := by
  rw [List.nodup_append] at h
  obtain ⟨hA, hB, hdisj⟩ := h
  rw [List.mem_append] at hn
  rw [List.nodup_append]
  refine ⟨?_, hB, ?_⟩
  · rw [List.nodup_append]
    refine ⟨hA, List.nodup_singleton n, ?_⟩
    intro x hxA hxn
    rw [List.mem_singleton] at hxn
    exact hn (Or.inl (hxn ▸ hxA))
  · intro x hx hxB
    rcases List.mem_append.mp hx with hxA | hxn
    · exact hdisj hxA hxB
    · rw [List.mem_singleton] at hxn
      exact hn (Or.inr (hxn ▸ hxB))

/-- Appending a fresh element on the right list keeps nodup. -/
theorem nodup_insert_fresh_right (A B : List Nat) (n : Nat)
    (h : (A ++ B).Nodup) (hn : n ∉ A ++ B) : (A ++ (B ++ [n])).Nodup := by
  rw [List.nodup_append] at h
  obtain ⟨hA, hB, hdisj⟩ := h
  rw [List.mem_append] at hn
  rw [List.nodup_append]
  refine ⟨hA, ?_, ?_⟩
  · rw [List.nodup_append]
    refine ⟨hB, List.nodup_singleton n, ?_⟩
    intro x hxB hxn
    rw [List.mem_singleton] at hxn
    exact hn (Or.inr (hxn ▸ hxB))
  · intro x hxA hx
    rcases List.mem_append.mp hx with hxB | hxn
    · exact hdisj hxA hxB
    · rw [List.mem_singleton] at hxn
      exact hn (Or.inl (hxn ▸ hxA))

/-- Moving an element from the right list to the end of the left list keeps
nodup. -/
theorem nodup_move_from_right (A B : List Nat) (k : Nat)
    (h : (A ++ B).Nodup) (hk : k ∈ B) : ((A ++ [k]) ++ B.erase k).Nodup := by
  rw [List.nodup_append] at h
  obtain ⟨hA, hB, hdisj⟩ := h
  rw [List.nodup_append]
  refine ⟨?_, hB.erase k, ?_⟩
  · rw [List.nodup_append]
    refine ⟨hA, List.nodup_singleton k, ?_⟩
    intro x hxA hxk
    rw [List.mem_singleton] at hxk
    exact hdisj hxA (hxk ▸ hk)
  · intro x hx hxe
    rcases List.mem_append.mp hx with hxA | hxk
    · exact hdisj hxA (List.mem_of_mem_erase hxe)
    · rw [List.mem_singleton] at hxk
      subst hxk
      exact ((List.Nodup.mem_erase_iff hB).mp hxe).1 rfl

/-- Moving an element from the left list to the end of the right list keeps
nodup. -/
theorem nodup_move_from_left (A B : List Nat) (k : Nat)
    (h : (A ++ B).Nodup) (hk : k ∈ A) : (A.erase k ++ (B ++ [k])).Nodup := by
  rw [List.nodup_append] at h
  obtain ⟨hA, hB, hdisj⟩ := h
  rw [List.nodup_append]
  refine ⟨hA.erase k, ?_, ?_⟩
  · rw [List.nodup_append]
    refine ⟨hB, List.nodup_singleton k, ?_⟩
    intro x hxB hxk
    rw [List.mem_singleton] at hxk
    exact hdisj (hxk ▸ hk) hxB
  · intro x hxe hx
    rcases List.mem_append.mp hx with hxB | hxk
    · exact hdisj (List.mem_of_mem_erase hxe) hxB
    · rw [List.mem_singleton] at hxk
      subst hxk
      exact ((List.Nodup.mem_erase_iff hA).mp hxe).1 rfl

/-- `removeById` commutes with projecting identities: it erases the identity. -/
theorem map_eid_removeById (k : Nat) :
    ∀ l : List RouteEntry, (removeById k l).map RouteEntry.eid = (l.map RouteEntry.eid).erase k := by
  intro l
  induction l with
  | nil => rfl
  | cons x xs ih =>
    rw [removeById, List.eraseP_cons, List.map_cons, List.erase_cons]
    cases hx : (x.eid == k) with
    | true =>
      have hxk : x.eid = k := by simpa using hx
      simp [hxk]
    | false =>
      have hne : ¬ x.eid = k := by simpa using hx
      simp only [hx, cond_false, List.map_cons, if_neg hne]
      rw [← removeById, ih]
      simp

/-- Members of `removeById k l` are members of `l`. -/
theorem mem_of_mem_removeById {k : Nat} {l : List RouteEntry} {e : RouteEntry}
    (h : e ∈ removeById k l) : e ∈ l :=
  List.mem_of_mem_eraseP h

/-- Every `TableStep` preserves the routing-table invariant. -/
theorem TableInv_step {st st2 : MeshState} (hstep : TableStep st st2) (hinv : TableInv st) :
    TableInv st2 := by
  obtain ⟨hnd, hcnt, hbnd⟩ := hinv
  have hfresh : st.nextId ∉ (st.valid ++ st.invalid).map RouteEntry.eid := by
    intro hmem
    obtain ⟨e, he, heq⟩ := List.mem_map.mp hmem
    exact absurd (heq ▸ hbnd e he) (lt_irrefl _)
  cases hstep with
  | createValid fields =>
    by_cases hfull : liveCount st < NUMBER_OF_ENTRIES
    · rw [bt_mesh_create_entry_valid, if_pos hfull]
      refine ⟨?_, ?_, ?_⟩
      · show (((st.valid ++ [_]) ++ st.invalid).map RouteEntry.eid).Nodup
        rw [List.map_append, List.map_append, List.map_singleton]
        rw [List.map_append] at hnd hfresh
        exact nodup_insert_fresh_left _ _ _ hnd hfresh
      · have hc : liveCount st = st.valid.length + st.invalid.length := rfl
        simp only [liveCount, List.length_append, List.length_cons, List.length_nil]
        omega
      · intro e he
        rcases List.mem_append.mp he with hv | hi
        · rcases List.mem_append.mp hv with hv2 | hnew
          · exact Nat.lt_succ_of_lt (hbnd e (List.mem_append.mpr (Or.inl hv2)))
          · rw [List.mem_singleton] at hnew
            subst hnew
            exact Nat.lt_succ_self _
        · exact Nat.lt_succ_of_lt (hbnd e (List.mem_append.mpr (Or.inr hi)))
    · rw [bt_mesh_create_entry_valid, if_neg hfull]
      exact ⟨hnd, hcnt, hbnd⟩
  | createInvalid fields =>
    by_cases hfull : liveCount st < NUMBER_OF_ENTRIES
    · rw [bt_mesh_create_entry_invalid, if_pos hfull]
      refine ⟨?_, ?_, ?_⟩
      · show ((st.valid ++ (st.invalid ++ [_])).map RouteEntry.eid).Nodup
        rw [List.map_append, List.map_append, List.map_singleton]
        rw [List.map_append] at hnd hfresh
        exact nodup_insert_fresh_right _ _ _ hnd hfresh
      · have hc : liveCount st = st.valid.length + st.invalid.length := rfl
        simp only [liveCount, List.length_append, List.length_cons, List.length_nil]
        omega
      · intro e he
        rcases List.mem_append.mp he with hv | hi
        · exact Nat.lt_succ_of_lt (hbnd e (List.mem_append.mpr (Or.inl hv)))
        · rcases List.mem_append.mp hi with hi2 | hnew
          · exact Nat.lt_succ_of_lt (hbnd e (List.mem_append.mpr (Or.inr hi2)))
          · rw [List.mem_singleton] at hnew
            subst hnew
            exact Nat.lt_succ_self _
    · rw [bt_mesh_create_entry_invalid, if_neg hfull]
      exact ⟨hnd, hcnt, hbnd⟩
  | createInvalidCb fields =>
    by_cases hfull : liveCount st < NUMBER_OF_ENTRIES
    · rw [bt_mesh_create_entry_invalid_with_cb, if_pos hfull]
      refine ⟨?_, ?_, ?_⟩
      · show ((st.valid ++ (st.invalid ++ [_])).map RouteEntry.eid).Nodup
        rw [List.map_append, List.map_append, List.map_singleton]
        rw [List.map_append] at hnd hfresh
        exact nodup_insert_fresh_right _ _ _ hnd hfresh
      · have hc : liveCount st = st.valid.length + st.invalid.length := rfl
        simp only [liveCount, List.length_append, List.length_cons, List.length_nil]
        omega
      · intro e he
        rcases List.mem_append.mp he with hv | hi
        · exact Nat.lt_succ_of_lt (hbnd e (List.mem_append.mpr (Or.inl hv)))
        · rcases List.mem_append.mp hi with hi2 | hnew
          · exact Nat.lt_succ_of_lt (hbnd e (List.mem_append.mpr (Or.inr hi2)))
          · rw [List.mem_singleton] at hnew
            subst hnew
            exact Nat.lt_succ_self _
    · rw [bt_mesh_create_entry_invalid_with_cb, if_neg hfull]
      exact ⟨hnd, hcnt, hbnd⟩
  | validate e he =>
    have hkmem : e.eid ∈ st.invalid.map RouteEntry.eid := List.mem_map_of_mem _ he
    refine ⟨?_, ?_, ?_⟩
    · show (((st.valid ++ [_]) ++ removeById e.eid st.invalid).map RouteEntry.eid).Nodup
      rw [List.map_append, List.map_append, List.map_singleton, map_eid_removeById]
      rw [List.map_append] at hnd
      exact nodup_move_from_right _ _ _ hnd hkmem
    · have hlen : (removeById e.eid st.invalid).length = st.invalid.length - 1 := by
        have h1 : ((removeById e.eid st.invalid).map RouteEntry.eid).length =
            ((st.invalid.map RouteEntry.eid).erase e.eid).length := by
          rw [map_eid_removeById]
        rw [List.length_map, List.length_erase_of_mem hkmem, List.length_map] at h1
        exact h1
      have hpos : 0 < st.invalid.length := List.length_pos_of_mem he
      have hc : liveCount st = st.valid.length + st.invalid.length := rfl
      have hval : (bt_mesh_validate_route (some e) st).1.valid =
          st.valid ++ [{ e with timer := ⟨TimerCb.deleteValid, LIFETIME⟩ }] := rfl
      have hinvp : (bt_mesh_validate_route (some e) st).1.invalid =
          removeById e.eid st.invalid := rfl
      simp only [liveCount, hval, hinvp, List.length_append, List.length_cons, List.length_nil]
      omega
    · intro x hx
      rcases List.mem_append.mp hx with hv | hi
      · rcases List.mem_append.mp hv with hv2 | hmoved
        · exact hbnd x (List.mem_append.mpr (Or.inl hv2))
        · rw [List.mem_singleton] at hmoved
          subst hmoved
          exact hbnd e (List.mem_append.mpr (Or.inr he))
      · exact hbnd x (List.mem_append.mpr (Or.inr (mem_of_mem_removeById hi)))
  | validateNull => exact ⟨hnd, hcnt, hbnd⟩
  | invalidate e he =>
    have hkmem : e.eid ∈ st.valid.map RouteEntry.eid := List.mem_map_of_mem _ he
    refine ⟨?_, ?_, ?_⟩
    · show ((removeById e.eid st.valid ++ (st.invalid ++ [_])).map RouteEntry.eid).Nodup
      rw [List.map_append, List.map_append, List.map_singleton, map_eid_removeById]
      rw [List.map_append] at hnd
      exact nodup_move_from_left _ _ _ hnd hkmem
    · have hlen : (removeById e.eid st.valid).length = st.valid.length - 1 := by
        have h1 : ((removeById e.eid st.valid).map RouteEntry.eid).length =
            ((st.valid.map RouteEntry.eid).erase e.eid).length := by
          rw [map_eid_removeById]
        rw [List.length_map, List.length_erase_of_mem hkmem, List.length_map] at h1
        exact h1
      have hpos : 0 < st.valid.length := List.length_pos_of_mem he
      have hc : liveCount st = st.valid.length + st.invalid.length := rfl
      have hval : (bt_mesh_invalidate_route (some e) st).1.valid =
          removeById e.eid st.valid := rfl
      have hinvp : (bt_mesh_invalidate_route (some e) st).1.invalid =
          st.invalid ++ [{ e with timer := ⟨TimerCb.deleteInvalid, LIFETIME⟩ }] := rfl
      simp only [liveCount, hval, hinvp, List.length_append, List.length_cons, List.length_nil]
      omega
    · intro x hx
      rcases List.mem_append.mp hx with hv | hi
      · exact hbnd x (List.mem_append.mpr (Or.inl (mem_of_mem_removeById hv)))
      · rcases List.mem_append.mp hi with hi2 | hmoved
        · exact hbnd x (List.mem_append.mpr (Or.inr hi2))
        · rw [List.mem_singleton] at hmoved
          subst hmoved
          exact hbnd e (List.mem_append.mpr (Or.inl he))
  | invalidateNull => exact ⟨hnd, hcnt, hbnd⟩
  | timerDeleteValid e he =>
    refine ⟨?_, ?_, ?_⟩
    · show ((removeById e.eid st.valid ++ st.invalid).map RouteEntry.eid).Nodup
      rw [List.map_append, map_eid_removeById]
      rw [List.map_append] at hnd
      exact ((List.erase_sublist _ _).append (List.Sublist.refl _)).nodup hnd
    · have hsub : (removeById e.eid st.valid).length ≤ st.valid.length :=
        (List.eraseP_sublist _).length_le
      have hc : liveCount st = st.valid.length + st.invalid.length := rfl
      have hval : (bt_mesh_delete_entry_valid e st).valid = removeById e.eid st.valid := rfl
      have hinvp : (bt_mesh_delete_entry_valid e st).invalid = st.invalid := rfl
      simp only [liveCount, hval, hinvp]
      omega
    · intro x hx
      rcases List.mem_append.mp hx with hv | hi
      · exact hbnd x (List.mem_append.mpr (Or.inl (mem_of_mem_removeById hv)))
      · exact hbnd x (List.mem_append.mpr (Or.inr hi))
  | timerDeleteInvalid e he =>
    refine ⟨?_, ?_, ?_⟩
    · show ((st.valid ++ removeById e.eid st.invalid).map RouteEntry.eid).Nodup
      rw [List.map_append, map_eid_removeById]
      rw [List.map_append] at hnd
      exact ((List.Sublist.refl _).append (List.erase_sublist _ _)).nodup hnd
    · have hsub : (removeById e.eid st.invalid).length ≤ st.invalid.length :=
        (List.eraseP_sublist _).length_le
      have hc : liveCount st = st.valid.length + st.invalid.length := rfl
      have hval : (bt_mesh_delete_entry_invalid e st).valid = st.valid := rfl
      have hinvp : (bt_mesh_delete_entry_invalid e st).invalid = removeById e.eid st.invalid := rfl
      simp only [liveCount, hval, hinvp]
      omega
    · intro x hx
      rcases List.mem_append.mp hx with hv | hi
      · exact hbnd x (List.mem_append.mpr (Or.inl hv))
      · exact hbnd x (List.mem_append.mpr (Or.inr (mem_of_mem_removeById hi)))
  | linkDrop e he =>
    refine ⟨?_, ?_, ?_⟩
    · show ((removeById e.eid st.valid ++ st.invalid).map RouteEntry.eid).Nodup
      rw [List.map_append, map_eid_removeById]
      rw [List.map_append] at hnd
      exact ((List.erase_sublist _ _).append (List.Sublist.refl _)).nodup hnd
    · have hsub : (removeById e.eid st.valid).length ≤ st.valid.length :=
        (List.eraseP_sublist _).length_le
      have hc : liveCount st = st.valid.length + st.invalid.length := rfl
      have hval : (bt_mesh_delete_entry_link_drop e st).valid = removeById e.eid st.valid := rfl
      have hinvp : (bt_mesh_delete_entry_link_drop e st).invalid = st.invalid := rfl
      simp only [liveCount, hval, hinvp]
      omega
    · intro x hx
      rcases List.mem_append.mp hx with hv | hi
      · exact hbnd x (List.mem_append.mpr (Or.inl (mem_of_mem_removeById hv)))
      · exact hbnd x (List.mem_append.mpr (Or.inr hi))

/-- The invariant holds in every state reachable from the empty table. -/
theorem TableInv_reachable (st : MeshState)
    (h : Relation.ReflTransGen TableStep initState st) : TableInv st := by
  induction h with
  | refl => exact ⟨by simp [initState], by simp [initState, liveCount], by simp [initState]⟩
  | tail hsteps hstep ih => exact TableInv_step hstep ih

/-- C1: along every sequence of routing-table operations (create valid,
create invalid, create invalid with callback, validate_route,
invalidate_route, the two timer-fired deletes and the link-drop delete)
starting from the freshly initialised table, every slab record is at all
times either free in the pool or a member of exactly one of the valid and
invalid lists (live record identities are pairwise distinct across the two
lists, so no record sits in both lists or twice in one), and the number of
live allocated route entries never exceeds NUMBER_OF_ENTRIES = 20. -/
theorem C1_pool_membership_invariant (st : MeshState)
    (h : Relation.ReflTransGen TableStep initState st) :
    ((st.valid ++ st.invalid).map RouteEntry.eid).Nodup ∧
    (∀ e ∈ st.valid, ∀ e2 ∈ st.invalid, e.eid ≠ e2.eid) ∧
    liveCount st ≤ NUMBER_OF_ENTRIES := by
  obtain ⟨hnd, hcnt, _⟩ := TableInv_reachable st h
  refine ⟨hnd, ?_, hcnt⟩
  intro e hev e2 hei heq
  rw [List.map_append] at hnd
  exact (List.disjoint_of_nodup_append hnd)
    (List.mem_map_of_mem RouteEntry.eid hev)
    (heq ▸ List.mem_map_of_mem RouteEntry.eid hei)

/-- C1 witness: a concrete two-step run (create a valid entry, then an
invalid one) reaches a state satisfying the invariant. -/
theorem C1_pool_membership_invariant_witness :
    (((bt_mesh_create_entry_invalid zeroEntry
        (bt_mesh_create_entry_valid zeroEntry initState).1).1.valid ++
       (bt_mesh_create_entry_invalid zeroEntry
        (bt_mesh_create_entry_valid zeroEntry initState).1).1.invalid).map RouteEntry.eid).Nodup ∧
    (∀ e ∈ (bt_mesh_create_entry_invalid zeroEntry
        (bt_mesh_create_entry_valid zeroEntry initState).1).1.valid,
     ∀ e2 ∈ (bt_mesh_create_entry_invalid zeroEntry
        (bt_mesh_create_entry_valid zeroEntry initState).1).1.invalid, e.eid ≠ e2.eid) ∧
    liveCount (bt_mesh_create_entry_invalid zeroEntry
        (bt_mesh_create_entry_valid zeroEntry initState).1).1 ≤ NUMBER_OF_ENTRIES := by
  exact C1_pool_membership_invariant _
    (Relation.ReflTransGen.tail
      (Relation.ReflTransGen.single (TableStep.createValid initState zeroEntry))
      (TableStep.createInvalid (bt_mesh_create_entry_valid zeroEntry initState).1 zeroEntry))
